import Mathlib

/-!
Verification of the campaign delivery pipeline of the email-management
server.  The definitions below are a shallow embedding of
`src/services/databaseMonitor.services.ts` (the active, second revision
of the file) and of `src/providers/email.factory.ts` /
`NodemailerProvider.ts`.

Modelling conventions:
* Timestamps are milliseconds since the epoch, as `Nat` (JavaScript
  `Date.getTime()`).  Subtraction `now - t` is the truncated `Nat`
  subtraction; every comparison in the source compares a non-negative
  delay, and the theorems instantiate `now` large enough that no
  truncation occurs.
* JavaScript truthiness of optional strings (`undefined`, `null`, `""`
  are falsy) is `jsTruthy`; `a || b` on numbers is `jsOrNat`.
* Prisma rows are Lean structures.  `EmailSend` rows are addressed by
  their unique `(emailId, campaignId)` key: `findFirst` returns the
  first row with that key and the subsequent `update` by row id updates
  that same row, which the model renders as an update of the first
  matching row.
* The model follows one campaign through the pipeline, so the state
  carries that campaign's status, its `EmailSend` rows and its (single,
  per-campaign-unique) `BulkEmailJob` row.  `bulkEmailJob.update` by a
  primary-key id that does not match throws `P2025`, which
  `updateBulkJobStats` catches and logs; the model renders this as a
  no-op when the id does not match.
* Transport behaviour is abstracted by an outcome per recipient:
  `SendOutcome.ok msgId` models `provider.send` resolving with that
  `messageId`, `SendOutcome.err msg` models it rejecting.
-/

set_option maxRecDepth 4000

namespace EmailPipeline

/-- JavaScript truthiness of an optional string: `undefined`/`null`/`""` are falsy. -/
def jsTruthy : Option String → Bool
  | none => false
  | some s => s ≠ ""

/-- JavaScript `a || b` for an optional number: `undefined`/`null`/`0` fall back to `b`. -/
def jsOrNat : Option Nat → Nat → Nat
  | none, b => b
  | some 0, b => b
  | some (n+1), _ => n + 1

/-- Per-character ASCII lowercasing (JavaScript `toLowerCase` on the ASCII
provider names and error codes this system compares). -/
def lowerString (s : String) : String := ⟨s.data.map Char.toLower⟩

/-- Campaign status enum of the Prisma schema. -/
inductive CStatus
  | DRAFT | READY | SCHEDULED | SENDING | SENT | FAILED
  deriving DecidableEq, Repr

/-- EmailSend (delivery attempt) status enum. -/
inductive SStatus
  | PENDING | SENT | FAILED | RETRYING | BOUNCED
  deriving DecidableEq, Repr

/-- A recipient from the campaign's list; the pipeline queries only rows with
`valid: true`, so a `CampaignData.emails` list already holds the valid recipients. -/
structure EmailRec where
  id : Nat
  address : String
  deriving DecidableEq, Repr

/-- An `emailSend` row: the per-(campaign, recipient) delivery attempt. -/
structure EmailSend where
  emailId : Nat
  campaignId : Nat
  status : SStatus
  retries : Nat
  bounceReason : Option String
  openedAt : Option Nat
  clickedAt : Option Nat
  bouncedAt : Option Nat
  complainedAt : Option Nat
  updatedAt : Nat
  deriving DecidableEq, Repr

/-- A `bulkEmailJob` row: per-campaign aggregate counters. -/
structure BulkJob where
  id : Nat
  campaignId : Nat
  totalEmails : Nat
  processedEmails : Nat
  successCount : Nat
  failureCount : Nat
  status : String
  startedAt : Nat
  completedAt : Option Nat
  deriving DecidableEq, Repr

/-- The sending-domain row (fields used by the pipeline). -/
structure DomainRec where
  id : Nat
  name : String
  verified : Bool
  smtpProvider : Option String
  smtpHost : Option String
  smtpPort : Option Nat
  smtpUsername : Option String
  smtpPassword : Option String
  fromEmail : Option String
  enableDomainWarmup : Bool
  dailyLimit : Option Nat
  deriving DecidableEq, Repr

/-- A campaign together with the included relations the monitor queries load
(`domain`, and `list.emails` filtered to `valid: true`). -/
structure CampaignData where
  id : Nat
  userId : Nat
  subject : String
  content : String
  domain : DomainRec
  emails : List EmailRec
  deriving DecidableEq, Repr

/-- Process-wide credential environment (`process.env`). -/
structure Env where
  resendApiKey : Option String
  mailtrapApiKey : Option String
  defaultResendFrom : Option String
  defaultMailtrapFrom : Option String
  deriving DecidableEq, Repr

/-- A past campaign of a domain, as seen by `checkDomainWarmupStatus`:
its status, its `sentAt` stamp and the number of valid recipients on its list. -/
structure PastCampaign where
  status : CStatus
  sentAt : Option Nat
  validEmailCount : Nat
  deriving DecidableEq, Repr

/-- Thirty days in milliseconds (`30 * 24 * 60 * 60 * 1000`). -/
def thirtyDaysMs : Nat := 30 * 24 * 60 * 60 * 1000

/-- The trailing-30-day sent volume computed by `checkDomainWarmupStatus`:
the query selects this domain's campaigns with `status: SENT` and
`sentAt ≥ now - 30d`, and the reduce sums their valid-recipient counts. -/
def sentLast30Days (now : Nat) (past : List PastCampaign) : Nat :=
  (past.filter (fun c =>
    decide (c.status = CStatus.SENT) &&
      match c.sentAt with
      | some t => decide (now - thirtyDaysMs ≤ t)
      | none => false)).foldl (fun total c => total + c.validEmailCount) 0

/-- Result record of `checkDomainWarmupStatus`. -/
structure WarmupStatus where
  sentLast30Days : Nat
  dailyLimit : Nat
  isInWarmup : Bool
  deriving DecidableEq, Repr

/-- `checkDomainWarmupStatus`: `dailyLimit` falls back to 100 via JS `||`,
and `isInWarmup` requires warmup enabled and fewer than 1000 sends in the
trailing window. -/
def checkDomainWarmupStatus (now : Nat) (d : DomainRec) (past : List PastCampaign) :
    WarmupStatus :=
  let sent := sentLast30Days now past
  { sentLast30Days := sent
    dailyLimit := jsOrNat d.dailyLimit 100
    isInWarmup := d.enableDomainWarmup && decide (sent < 1000) }

/-- The `validProviders` list of `validateDomainForSending`. -/
def validProviders : List String := ["custom", "resend", "mailtrap"]

/-- Lookup of `process.env[providerName.toUpperCase() ++ "_API_KEY"]` for the
hosted providers. -/
def envApiKey (env : Env) (providerLower : String) : Option String :=
  if providerLower = "resend" then env.resendApiKey
  else if providerLower = "mailtrap" then env.mailtrapApiKey
  else none

/-- `validateDomainForSending` (active revision): provider must be in the
closed set; custom SMTP additionally needs `verified`, a configured
`fromEmail` and complete host/username/password; hosted providers need the
process-wide API key; with warmup enabled the claim is rejected when the
domain is in warmup and the trailing-30-day volume reaches `dailyLimit`. -/
def validateDomainForSending (env : Env) (now : Nat) (d : DomainRec)
    (past : List PastCampaign) : Bool :=
  match d.smtpProvider with
  | none => false
  | some p =>
    let pl := lowerString p
    if ¬ validProviders.contains pl then false
    else
      let providerOk :=
        if pl = "custom" then
          d.verified && jsTruthy d.fromEmail &&
            jsTruthy d.smtpHost && jsTruthy d.smtpUsername && jsTruthy d.smtpPassword
        else
          jsTruthy (envApiKey env pl)
      if ¬ providerOk then false
      else
        if d.enableDomainWarmup then
          let w := checkDomainWarmupStatus now d past
          ¬ (w.isInWarmup && decide (w.dailyLimit ≤ w.sentLast30Days))
        else
          true

/-- The exception behaviour of `EmailProviderFactory.createProvider` plus the
provider constructors: nodemailer requires a transport, Resend and Mailtrap
require an API key, any other name is unsupported. -/
def createProviderThrow (name : String) (apiKey : Option String)
    (hasTransport : Bool) : Except String Unit :=
  let nl := lowerString name
  if nl = "nodemailer" then
    if hasTransport then .ok () else .error "Nodemailer transport configuration is required"
  else if nl = "resend" then
    if jsTruthy apiKey then .ok () else .error "Resend API key is required"
  else if nl = "mailtrap" then
    if jsTruthy apiKey then .ok () else .error "Mailtrap API key is required"
  else
    .error ("Unsupported email provider: " ++ name)

/-- `domain.smtpProvider?.toLowerCase() || 'custom'`. -/
def providerNameOf (d : DomainRec) : String :=
  match d.smtpProvider with
  | none => "custom"
  | some s => if lowerString s = "" then "custom" else lowerString s

/-- `configureProviderForDomain`: builds the provider config for the domain
and surfaces the exceptions thrown on the way (incomplete custom SMTP
settings, or a provider constructor rejecting its config). -/
def configureProviderForDomain (env : Env) (d : DomainRec) : Except String Unit :=
  let pn := providerNameOf d
  if pn = "resend" then
    createProviderThrow "resend" env.resendApiKey false
  else if pn = "mailtrap" then
    createProviderThrow "mailtrap" env.mailtrapApiKey false
  else
    if jsTruthy d.smtpHost && jsTruthy d.smtpUsername && jsTruthy d.smtpPassword then
      createProviderThrow "nodemailer" none true
    else
      .error "Custom SMTP configuration incomplete"

/-- Outcome of one `provider.send` call for one recipient: the promise
resolves with a `messageId`, or rejects with an error message. -/
inductive SendOutcome
  | ok (messageId : String)
  | err (message : String)
  deriving DecidableEq, Repr

/-- The pipeline state of one campaign: its status, its `sentAt` stamp, its
`emailSend` rows and its (per-campaign-unique) `bulkEmailJob` row. -/
structure PipeState where
  campaignStatus : CStatus
  sentAt : Option Nat
  sends : List EmailSend
  job : Option BulkJob
  deriving DecidableEq, Repr

/-- The `(emailId, campaignId)` key test used by `findFirst` on `emailSend`. -/
def keyMatches (eid cid : Nat) (s : EmailSend) : Bool :=
  s.emailId = eid && s.campaignId = cid

/-- `prisma.emailSend.findFirst` on the pair key. -/
def findSend (sends : List EmailSend) (eid cid : Nat) : Option EmailSend :=
  sends.find? (keyMatches eid cid)

/-- `prisma.emailSend.update` addressed through the row that `findFirst`
returned: the first row with the key is replaced. -/
def updateFirstSend (sends : List EmailSend) (eid cid : Nat)
    (f : EmailSend → EmailSend) : List EmailSend :=
  match sends with
  | [] => []
  | s :: rest =>
    if keyMatches eid cid s then f s :: rest
    else s :: updateFirstSend rest eid cid f

/-- The row `prisma.emailSend.create` inserts: status `PENDING`, schema
defaults for the remaining fields (`retries` defaults to 0). -/
def freshSend (eid cid now : Nat) : EmailSend :=
  { emailId := eid, campaignId := cid, status := .PENDING, retries := 0,
    bounceReason := none, openedAt := none, clickedAt := none, bouncedAt := none,
    complainedAt := none, updatedAt := now }

/-- The find-or-create phase at the top of the active `sendSingleEmail`: an
existing row is reused as-is (no field is written); otherwise a fresh
`PENDING` row is inserted. -/
def findOrCreateSend (sends : List EmailSend) (eid cid now : Nat) :
    EmailSend × List EmailSend :=
  match findSend sends eid cid with
  | some s => (s, sends)
  | none =>
    let s := freshSend eid cid now
    (s, sends ++ [s])

/-- The completion write of `updateBulkJobStats`. -/
def completeJob (j : BulkJob) (now : Nat) : BulkJob :=
  { j with status := "completed", completedAt := some now }

/-- `updateBulkJobStats`: increment the counters of the job row with the given
primary-key id, then re-read the persisted row and, when
`processedEmails >= totalEmails`, mark the job completed and the campaign
`SENT`.  When no row has that id the update throws, which the surrounding
catch turns into a logged no-op. -/
def updateBulkJobStats (bulkJobId : Nat) (success : Bool) (now : Nat)
    (st : PipeState) : PipeState :=
  match st.job with
  | some j =>
    if j.id = bulkJobId then
      let j1 := { j with
        processedEmails := j.processedEmails + 1,
        successCount := j.successCount + (if success then 1 else 0),
        failureCount := j.failureCount + (if success then 0 else 1) }
      if j1.totalEmails ≤ j1.processedEmails then
        { st with job := some (completeJob j1 now), campaignStatus := .SENT }
      else
        { st with job := some j1 }
    else st
  | none => st

/-- The row update of the catch branch of `sendSingleEmail`: status `FAILED`,
the captured reason, and an incremented retry counter. -/
def failedMark (msg : String) (now : Nat) (r : EmailSend) : EmailSend :=
  { r with status := .FAILED, bounceReason := some msg,
           retries := r.retries + 1, updatedAt := now }

/-- The row update of the success branch of `sendSingleEmail`: only the
status is written. -/
def sentMark (now : Nat) (r : EmailSend) : EmailSend :=
  { r with status := .SENT, updatedAt := now }

/-- The active `sendSingleEmail`: find-or-create the attempt row, configure
the provider, send, and on success mark the row `SENT` or on any exception
mark it `FAILED` via `failedMark`; both branches then run
`updateBulkJobStats`.  A falsy `messageId` on a resolved send is turned into
an exception.  Every exception is caught inside this function, so it never
propagates to its caller. -/
def sendSingleEmail (env : Env) (c : CampaignData) (e : EmailRec)
    (outcome : SendOutcome) (bulkJobId : Nat) (now : Nat) (st : PipeState) :
    PipeState :=
  let sends1 := (findOrCreateSend st.sends e.id c.id now).2
  let st1 := { st with sends := sends1 }
  let fail := fun (msg : String) =>
    let sends2 := updateFirstSend st1.sends e.id c.id (failedMark msg now)
    updateBulkJobStats bulkJobId false now { st1 with sends := sends2 }
  match configureProviderForDomain env c.domain with
  | .error msg => fail msg
  | .ok _ =>
    match outcome with
    | .err msg => fail msg
    | .ok msgId =>
      if msgId = "" then fail "No message ID returned from provider"
      else
        let sends2 := updateFirstSend st1.sends e.id c.id (sentMark now)
        updateBulkJobStats bulkJobId true now { st1 with sends := sends2 }

/-- The net effect of one `sendSingleEmail` dispatch on the attempt row it
operates on: the catch branch marks it failed (reason captured, retry counter
incremented), the success branch marks it sent; a provider-configuration
exception or a falsy message id land in the catch branch like any transport
rejection. -/
def redispatchedRow (env : Env) (c : CampaignData) (outcome : SendOutcome)
    (now : Nat) (s : EmailSend) : EmailSend :=
  match configureProviderForDomain env c.domain with
  | .error msg => failedMark msg now s
  | .ok _ =>
    match outcome with
    | .err msg => failedMark msg now s
    | .ok msgId =>
      if msgId = "" then failedMark "No message ID returned from provider" now s
      else sentMark now s

/-- `prisma.bulkEmailJob.upsert` keyed on `campaignId` at the top of
`processCampaignEmailsDirectly`: both branches set the totals to the
valid-recipient count and reset `processedEmails`, `successCount` and
`failureCount` to 0. -/
def upsertBulkJob (c : CampaignData) (freshJobId now : Nat) (st : PipeState) :
    PipeState :=
  match st.job with
  | some j =>
    let j1 : BulkJob :=
      { j with status := "processing", totalEmails := c.emails.length,
               processedEmails := 0, successCount := 0, failureCount := 0,
               startedAt := now }
    { st with job := some j1 }
  | none =>
    let j1 : BulkJob :=
      { id := freshJobId, campaignId := c.id, totalEmails := c.emails.length,
        processedEmails := 0, successCount := 0, failureCount := 0,
        status := "processing", startedAt := now, completedAt := none }
    { st with job := some j1 }

/-- `BATCH_SIZE` of the monitor service. -/
def BATCH_SIZE : Nat := 10

/-- The inter-batch pause of `processCampaignEmailsDirectly`
(`setTimeout(resolve, 1000)` after each batch), in milliseconds. -/
def interBatchPauseMs : Nat := 1000

/-- Fuel-driven worker for `chunkList`: the fuel (initialised to the list
length, an upper bound on the number of slices) makes the recursion
structural. -/
def chunkGo (n : Nat) : Nat → List α → List (List α)
  | _, [] => []
  | 0, _ :: _ => []
  | fuel + 1, a :: rest => (a :: rest.take (n - 1)) :: chunkGo n fuel (rest.drop (n - 1))

/-- The batch partition built by the slicing loop of
`processCampaignEmailsDirectly`: consecutive slices of `n` elements. -/
def chunkList (n : Nat) (l : List α) : List (List α) :=
  chunkGo n l.length l

/-- One batch of `processCampaignEmailsDirectly`: `Promise.allSettled` starts
every send of the batch and collects all results, so each recipient's
`sendSingleEmail` effect is applied whatever the outcomes of its siblings
are; the model linearises the batch as a fold. -/
def processBatch (env : Env) (c : CampaignData) (outcomes : Nat → SendOutcome)
    (bulkJobId : Nat) (now : Nat) (st : PipeState) (batch : List EmailRec) :
    PipeState :=
  batch.foldl (fun acc e => sendSingleEmail env c e (outcomes e.id) bulkJobId now acc) st

/-- `processCampaignEmailsDirectly`: upsert the bulk job, slice the valid
recipients into `BATCH_SIZE`-sized batches, and process the batches
sequentially (with the 1-second pause after each batch, which does not alter
the store state). -/
def processCampaignEmailsDirectly (env : Env) (c : CampaignData)
    (outcomes : Nat → SendOutcome) (freshJobId now : Nat) (st : PipeState) :
    PipeState :=
  let st1 := upsertBulkJob c freshJobId now st
  let bulkJobId := match st1.job with | some j => j.id | none => 0
  (chunkList BATCH_SIZE c.emails).foldl
    (fun acc batch => processBatch env c outcomes bulkJobId now acc batch) st1

/-- The active `processSingleCampaign`: the domain-validation guard present in
the source is commented out, so the campaign is claimed unconditionally
(status `SENDING`, `sentAt` stamped) and the dispatch pass runs.  The catch
that marks the campaign `FAILED` fires only when the dispatch pass throws;
the modelled pass is total (per-recipient exceptions are caught inside
`sendSingleEmail` and `Promise.allSettled` never rejects), so that branch is
unreachable in the model. -/
def processSingleCampaign (env : Env) (c : CampaignData)
    (outcomes : Nat → SendOutcome) (freshJobId now : Nat) (st : PipeState) :
    PipeState :=
  let st1 := { st with campaignStatus := .SENDING, sentAt := some now }
  processCampaignEmailsDirectly env c outcomes freshJobId now st1

/-- The attempt statuses the stall sweep treats as still in flight. -/
def nonTerminalStatuses : List SStatus := [.PENDING, .RETRYING, .FAILED]

/-- `checkStalledSendingCampaigns` for one campaign: a campaign in `SENDING`
whose `sentAt` is at least 30 minutes old is stalled.  If any of its attempt
rows is in a non-terminal status, the full dispatch pass re-runs over all
currently-valid recipients of its list; otherwise the campaign is marked
`SENT`. -/
def checkStalledSendingCampaigns (env : Env) (c : CampaignData)
    (outcomes : Nat → SendOutcome) (freshJobId now : Nat) (st : PipeState) :
    PipeState :=
  let stalled :=
    st.campaignStatus = CStatus.SENDING &&
      match st.sentAt with
      | some t => decide (t ≤ now - 30 * 60 * 1000)
      | none => false
  if stalled then
    let nonTerminal := st.sends.filter (fun s => nonTerminalStatuses.contains s.status)
    if 0 < nonTerminal.length then
      processCampaignEmailsDirectly env c outcomes freshJobId now st
    else
      { st with campaignStatus := .SENT }
  else st

/-- `MAX_RETRY_ATTEMPTS` of the monitor service. -/
def MAX_RETRY_ATTEMPTS : Nat := 3

/-- `RETRY_DELAY_BASE` (15 minutes) in milliseconds. -/
def RETRY_DELAY_BASE : Nat := 15 * 60 * 1000

/-- Twenty-four hours in milliseconds. -/
def twentyFourHoursMs : Nat := 24 * 60 * 60 * 1000

/-- The `findMany` filter of `checkFailedEmailsForRetry`: status `FAILED`,
fewer than `MAX_RETRY_ATTEMPTS` retries, and updated within the last 24
hours. -/
def retryQueryPred (now : Nat) (s : EmailSend) : Bool :=
  s.status = SStatus.FAILED && s.retries < MAX_RETRY_ATTEMPTS &&
    now - twentyFourHoursMs ≤ s.updatedAt

/-- The in-loop backoff check of `checkFailedEmailsForRetry`:
at least `2 ^ retries * RETRY_DELAY_BASE` milliseconds since the last
update. -/
def retryDuePred (now : Nat) (s : EmailSend) : Bool :=
  2 ^ s.retries * RETRY_DELAY_BASE ≤ now - s.updatedAt

/-- The attempts the retry sweep re-dispatches: the query results that also
pass the backoff check. -/
def retryRedispatchList (now : Nat) (sends : List EmailSend) : List EmailSend :=
  (sends.filter (retryQueryPred now)).filter (retryDuePred now)

/-- The recipient record the retry sweep hands to `sendSingleEmail`
(`emailSend.email`; the address is irrelevant to the modelled state). -/
def emailRecOf (s : EmailSend) : EmailRec :=
  { id := s.emailId, address := "" }

/-- The active `checkFailedEmailsForRetry`: re-dispatch every selected attempt
through `sendSingleEmail`.  The third argument the source passes as the bulk
job id is `emailSend.campaignId` (the campaign id, not a bulk-job id), which
the model reproduces. -/
def checkFailedEmailsForRetry (env : Env) (c : CampaignData)
    (outcomes : Nat → SendOutcome) (now : Nat) (st : PipeState) : PipeState :=
  (retryRedispatchList now st.sends).foldl
    (fun acc s => sendSingleEmail env c (emailRecOf s) (outcomes s.emailId)
      s.campaignId now acc) st

/-- `cleanupStalledJobs`: attempts stuck in `RETRYING` for at least 10 minutes
are forced back to `FAILED`. -/
def cleanupStalledJobs (now : Nat) (st : PipeState) : PipeState :=
  { st with sends := st.sends.map (fun s =>
      if s.status = SStatus.RETRYING && s.updatedAt ≤ now - 10 * 60 * 1000 then
        { s with status := .FAILED, updatedAt := now }
      else s) }

/-- The statuses `updateCampaignMetrics` counts as completed. -/
def terminalStatuses : List SStatus := [.SENT, .BOUNCED, .FAILED]

/-- `updateCampaignMetrics` for one campaign: a `SENDING` campaign with a
positive number of attempt rows, all of them in a terminal status, is marked
`SENT`.  The pass reads only the attempt rows, never the bulk-job
counters. -/
def updateCampaignMetrics (st : PipeState) : PipeState :=
  if st.campaignStatus = CStatus.SENDING then
    let total := st.sends.length
    let completed := (st.sends.filter (fun s => terminalStatuses.contains s.status)).length
    if 0 < total && completed = total then { st with campaignStatus := .SENT }
    else st
  else st

/-- `updateBulkJobStats` with a transiently failing counter update: the thrown
store error is caught by the surrounding catch and logged, so the call
returns normally with no mutation and no exception propagates. -/
def updateBulkJobStatsFallible (incrementFails : Bool) (bulkJobId : Nat)
    (success : Bool) (now : Nat) (st : PipeState) : PipeState :=
  if incrementFails then st
  else updateBulkJobStats bulkJobId success now st

/-- The reset applied by the legacy `processCampaignEmails` (first revision of
the service) to an existing attempt row: status back to `PENDING`, failure
reason and event timestamps cleared.  The retry counter is not among the
written fields. -/
def legacyResetSend (now : Nat) (s : EmailSend) : EmailSend :=
  { s with status := .PENDING, bounceReason := none, openedAt := none,
           clickedAt := none, bouncedAt := none, complainedAt := none,
           updatedAt := now }

/-- The per-recipient reconciliation of the legacy `processCampaignEmails`:
update an existing row with the reset, or create a fresh `PENDING` row. -/
def legacyReconcileSend (sends : List EmailSend) (eid cid now : Nat) :
    List EmailSend :=
  match findSend sends eid cid with
  | some _ => updateFirstSend sends eid cid (legacyResetSend now)
  | none => sends ++ [freshSend eid cid now]

/-- A campaign row as read by `triggerDraftCampaignImmediately`. -/
structure CampaignRow where
  id : Nat
  status : CStatus
  scheduledAt : Option Nat
  deriving DecidableEq, Repr

/-- `triggerDraftCampaignImmediately`: a missing campaign or one not in
`DRAFT` makes the call throw before any write; a `DRAFT` campaign has its
schedule cleared and its status set to `READY`. -/
def triggerDraftCampaignImmediately (store : List CampaignRow)
    (campaignId : Nat) : Except String (List CampaignRow) :=
  match store.find? (fun c => c.id = campaignId) with
  | none => .error "Campaign not found"
  | some c =>
    if c.status ≠ CStatus.DRAFT then
      .error "Campaign must be in DRAFT status"
    else
      .ok (store.map (fun r =>
        if r.id = campaignId then { r with scheduledAt := none, status := .READY }
        else r))

/-! ### The nodemailer SMTP adapter (`NodemailerProvider`) -/

/-- Does the haystack start with the pattern? -/
def listStarts : List Char → List Char → Bool
  | [], _ => true
  | _ :: _, [] => false
  | p :: ps, h :: hs => p = h && listStarts ps hs

/-- Does the pattern occur as a contiguous substring of the haystack
(JavaScript `String.prototype.includes`)? -/
def listHasSub (pl : List Char) : List Char → Bool
  | [] => pl.isEmpty
  | c :: hs => listStarts pl (c :: hs) || listHasSub pl hs

/-- `haystack.includes(pattern)` on strings. -/
def strIncludes (haystack pat : String) : Bool :=
  listHasSub pat.toList haystack.toList

/-- A JavaScript error as inspected by `isConnectionError`. -/
structure JsError where
  message : String
  code : Option String
  deriving DecidableEq, Repr

/-- `isConnectionError`: message mentions a timeout / connection / `ECONN`
fragment, or the error code is one of the three connection codes. -/
def isConnectionError (e : JsError) : Bool :=
  let m := lowerString e.message
  strIncludes m "timeout" || strIncludes m "connection" || strIncludes m "econn" ||
    e.code = some "ETIMEDOUT" || e.code = some "ECONNREFUSED" ||
    e.code = some "ECONNRESET"

/-- The adapter's connection-health counters. -/
structure ConnMetrics where
  successCount : Nat
  errorCount : Nat
  lastError : Option Nat
  coolingUntil : Option Nat
  deriving DecidableEq, Repr

/-- `MAX_RETRIES` of `NodemailerProvider` (total in-call attempts). -/
def NM_MAX_RETRIES : Nat := 3

/-- `COOLING_PERIOD` of `NodemailerProvider` (5 minutes), in milliseconds. -/
def NM_COOLING_PERIOD : Nat := 5 * 60 * 1000

/-- `activateCoolingPeriod`. -/
def activateCoolingPeriod (now : Nat) (m : ConnMetrics) : ConnMetrics :=
  { m with coolingUntil := some (now + NM_COOLING_PERIOD) }

/-- One `transporter.sendMail` call resolves with a message id or rejects
with an error. -/
inductive NetOutcome
  | success (messageId : String)
  | failure (e : JsError)
  deriving DecidableEq, Repr

/-- The message fields `validateEmailMessage` inspects (single-recipient
form). -/
structure MsgM where
  toAddr : String
  subject : String
  html : Option String
  text : Option String
  deriving DecidableEq, Repr

/-- `BaseProvider.validateEmailMessage`. -/
def validateEmailMessage (msg : MsgM) : Except String Unit :=
  if msg.toAddr = "" then .error "Recipient email is required"
  else if msg.subject = "" then .error "Email subject is required"
  else if ¬ (jsTruthy msg.html || jsTruthy msg.text) then
    .error "Email content (html or text) is required"
  else .ok ()

/-- How one `NodemailerProvider.send` call ends. -/
inductive NmSendResult
  | sent (messageId : String)
  | invalidMessage (msg : String)
  | coolingRefused
  | failedAfterMax (msg : String)
  | thrown (msg : String)
  deriving DecidableEq, Repr

/-- The observable trace of one `NodemailerProvider.send` call: its result,
the metrics afterwards, how many network attempts ran, whether the
transporter was recreated, and the backoff sleeps (in ms) taken between
attempts. -/
structure NmRun where
  result : NmSendResult
  metrics : ConnMetrics
  attemptsUsed : Nat
  recreated : Bool
  backoffs : List Nat
  deriving DecidableEq, Repr

/-- The retry loop of `NodemailerProvider.send` (`for attempt = 1..MAX_RETRIES`).
The `fuel` counter renders the bounded loop; the loop exits normally only
through the unreachable trailing `throw lastError`.  A connection-class
failure on a non-final attempt sleeps `2 ^ attempt * 1000` ms and, on attempt
2, recreates the transporter before retrying; a connection-class failure on
the final attempt activates the cooling period and throws; any other failure
throws at once. -/
def nmLoop (now : Nat) (outcomes : Nat → NetOutcome) :
    Nat → Nat → String → ConnMetrics → Bool → List Nat → NmRun
  | 0, attempt, lastErr, m, recreated, backoffs =>
    { result := .thrown lastErr, metrics := m, attemptsUsed := attempt - 1,
      recreated := recreated, backoffs := backoffs }
  | fuel + 1, attempt, _, m, recreated, backoffs =>
    match outcomes attempt with
    | .success msgId =>
      { result := .sent msgId,
        metrics := { m with successCount := m.successCount + 1 },
        attemptsUsed := attempt, recreated := recreated, backoffs := backoffs }
    | .failure e =>
      let m1 := { m with errorCount := m.errorCount + 1, lastError := some now }
      if isConnectionError e then
        if attempt = NM_MAX_RETRIES then
          { result := .failedAfterMax e.message,
            metrics := activateCoolingPeriod now m1,
            attemptsUsed := attempt, recreated := recreated, backoffs := backoffs }
        else
          nmLoop now outcomes fuel (attempt + 1) e.message m1
            (recreated || decide (attempt = 2)) (backoffs ++ [2 ^ attempt * 1000])
      else
        { result := .thrown e.message, metrics := m1, attemptsUsed := attempt,
          recreated := recreated, backoffs := backoffs }

/-- `NodemailerProvider.send`: validate the message, refuse immediately while
the cooling period is active (no network attempt), otherwise run the bounded
retry loop. -/
def nodemailerSend (now : Nat) (msg : MsgM) (outcomes : Nat → NetOutcome)
    (m : ConnMetrics) : NmRun :=
  match validateEmailMessage msg with
  | .error s =>
    { result := .invalidMessage s, metrics := m, attemptsUsed := 0,
      recreated := false, backoffs := [] }
  | .ok _ =>
    let cooling :=
      match m.coolingUntil with
      | some t => decide (now < t)
      | none => false
    if cooling then
      { result := .coolingRefused, metrics := m, attemptsUsed := 0,
        recreated := false, backoffs := [] }
    else
      nmLoop now outcomes NM_MAX_RETRIES 1 "" m false []

/-! ### Projections, instrumentation and concrete fixtures -/

/-- Number of attempt rows with the given `(emailId, campaignId)` key. -/
def countKey (sends : List EmailSend) (eid cid : Nat) : Nat :=
  (sends.filter (keyMatches eid cid)).length

/-- `processedEmails` of the campaign's bulk job (0 when no job row exists). -/
def jobProcessed (st : PipeState) : Nat :=
  match st.job with
  | some j => j.processedEmails
  | none => 0

/-- `totalEmails` of the campaign's bulk job (0 when no job row exists). -/
def jobTotal (st : PipeState) : Nat :=
  match st.job with
  | some j => j.totalEmails
  | none => 0

/-- Status string of the campaign's bulk job (empty when no job row exists). -/
def jobStatusStr (st : PipeState) : String :=
  match st.job with
  | some j => j.status
  | none => ""

/-- The bulk-job id every send of a dispatch pass reports to: the id of the
job row right after the upsert. -/
def dispatchJobId (c : CampaignData) (freshJobId now : Nat) (st : PipeState) : Nat :=
  match (upsertBulkJob c freshJobId now st).job with
  | some j => j.id
  | none => 0

/-- The state of a dispatch pass after its first `k` recipients: the upsert
followed by the sends of `c.emails.take k` (instrumentation for stating when
completion fires). -/
def dispatchPrefix (env : Env) (c : CampaignData) (outcomes : Nat → SendOutcome)
    (freshJobId now : Nat) (st : PipeState) (k : Nat) : PipeState :=
  (c.emails.take k).foldl
    (fun acc e => sendSingleEmail env c e (outcomes e.id)
      (dispatchJobId c freshJobId now st) now acc)
    (upsertBulkJob c freshJobId now st)

/-- Following the words of the spec and the claim: the retry sweep selects
exactly the attempts in `FAILED` with retry count below 3 whose last update
is at least `15 minutes * 2 ^ retryCount` in the past (stated for comparison
with the selection the code performs, which also requires the last update to
lie within the trailing 24 hours). -/
def specRetrySelects (now : Nat) (s : EmailSend) : Bool :=
  decide (s.status = SStatus.FAILED) && decide (s.retries < 3) &&
    decide (2 ^ s.retries * RETRY_DELAY_BASE ≤ now - s.updatedAt)

/-- An environment with no hosted-provider API keys configured. -/
def envEmpty : Env :=
  { resendApiKey := none, mailtrapApiKey := none,
    defaultResendFrom := none, defaultMailtrapFrom := none }

/-- A custom-SMTP domain that fails validation: unverified, no sender
address, no SMTP credentials. -/
def badDomain : DomainRec :=
  { id := 1, name := "bad.example", verified := false,
    smtpProvider := some "custom", smtpHost := none, smtpPort := none,
    smtpUsername := none, smtpPassword := none, fromEmail := none,
    enableDomainWarmup := false, dailyLimit := none }

/-- A fully configured, verified custom-SMTP domain. -/
def goodDomain : DomainRec :=
  { id := 2, name := "ok.example", verified := true,
    smtpProvider := some "custom", smtpHost := some "smtp.ok.example",
    smtpPort := some 587, smtpUsername := some "user",
    smtpPassword := some "pass", fromEmail := some "sender@ok.example",
    enableDomainWarmup := false, dailyLimit := none }

/-- First valid recipient. -/
def recipA : EmailRec := { id := 1, address := "a@x.example" }

/-- Second valid recipient. -/
def recipB : EmailRec := { id := 2, address := "b@x.example" }

/-- A one-recipient campaign on the failing domain. -/
def badCampaign : CampaignData :=
  { id := 10, userId := 1, subject := "s", content := "b",
    domain := badDomain, emails := [recipA] }

/-- A two-recipient campaign on the good domain. -/
def goodCampaign : CampaignData :=
  { id := 20, userId := 1, subject := "s", content := "b",
    domain := goodDomain, emails := [recipA, recipB] }

/-- A campaign state before any pipeline activity. -/
def emptyState : PipeState :=
  { campaignStatus := .DRAFT, sentAt := none, sends := [], job := none }

/-- A freshly claimed campaign state: `SENDING`, no rows yet. -/
def sendingEmpty : PipeState :=
  { campaignStatus := .SENDING, sentAt := some 0, sends := [], job := none }

/-- An attempt row for `recipA` of `goodCampaign` already in `SENT`. -/
def rowASent : EmailSend :=
  { emailId := 1, campaignId := 20, status := .SENT, retries := 0,
    bounceReason := none, openedAt := none, clickedAt := none,
    bouncedAt := none, complainedAt := none, updatedAt := 0 }

/-- An attempt row for `recipB` of `goodCampaign` in `FAILED`. -/
def rowBFailed : EmailSend :=
  { emailId := 2, campaignId := 20, status := .FAILED, retries := 1,
    bounceReason := some "x", openedAt := none, clickedAt := none,
    bouncedAt := none, complainedAt := none, updatedAt := 0 }

/-- A prior attempt row for `recipA` with populated transient fields. -/
def rowPrior : EmailSend :=
  { emailId := 1, campaignId := 20, status := .FAILED, retries := 2,
    bounceReason := some "boom", openedAt := some 5, clickedAt := none,
    bouncedAt := none, complainedAt := none, updatedAt := 0 }

/-- A bulk job of `goodCampaign` that has already processed 3 emails. -/
def jobPrev : BulkJob :=
  { id := 5, campaignId := 20, totalEmails := 3, processedEmails := 3,
    successCount := 3, failureCount := 0, status := "completed",
    startedAt := 0, completedAt := some 1 }

/-- A stalled `goodCampaign` state: `SENDING` since time 0, one attempt
already `SENT` and one `FAILED`, with the old bulk job. -/
def stStalled : PipeState :=
  { campaignStatus := .SENDING, sentAt := some 0,
    sends := [rowASent, rowBFailed], job := some jobPrev }

/-- A failed attempt last updated 25 hours before `now25h`. -/
def rowStale : EmailSend :=
  { emailId := 1, campaignId := 20, status := .FAILED, retries := 0,
    bounceReason := some "x", openedAt := none, clickedAt := none,
    bouncedAt := none, complainedAt := none, updatedAt := 0 }

/-- Twenty-five hours in milliseconds. -/
def now25h : Nat := 25 * 60 * 60 * 1000

/-- A failed attempt with one retry, last updated two hours before `now2h`. -/
def rowRetryable : EmailSend :=
  { emailId := 1, campaignId := 20, status := .FAILED, retries := 1,
    bounceReason := some "boom", openedAt := none, clickedAt := none,
    bouncedAt := none, complainedAt := none, updatedAt := 0 }

/-- Two hours in milliseconds. -/
def now2h : Nat := 2 * 60 * 60 * 1000

/-- State holding only `rowRetryable`. -/
def stRetry : PipeState :=
  { campaignStatus := .SENDING, sentAt := some 0,
    sends := [rowRetryable], job := none }

/-- A connection-class transport error. -/
def connErr1 : JsError := { message := "connection timeout", code := some "ETIMEDOUT" }

/-- A non-connection transport error. -/
def otherErr1 : JsError := { message := "mailbox unavailable", code := none }

/-- Every attempt rejects with the connection error. -/
def outcomesConn : Nat → NetOutcome := fun _ => .failure connErr1

/-- The first two attempts reject with the connection error, the third
resolves. -/
def outcomesConnThenOk : Nat → NetOutcome :=
  fun a => if a ≤ 2 then .failure connErr1 else .success "mid"

/-- Every attempt rejects with the non-connection error. -/
def outcomesOther : Nat → NetOutcome := fun _ => .failure otherErr1

/-- A message that passes `validateEmailMessage`. -/
def msgOk : MsgM :=
  { toAddr := "a@x.example", subject := "s", html := some "h", text := none }

/-- Fresh adapter metrics. -/
def metrics0 : ConnMetrics :=
  { successCount := 0, errorCount := 0, lastError := none, coolingUntil := none }

/-- An attempt that has reached the retry ceiling. -/
def rowMaxed : EmailSend :=
  { emailId := 1, campaignId := 20, status := .FAILED, retries := 3,
    bounceReason := some "boom", openedAt := none, clickedAt := none,
    bouncedAt := none, complainedAt := none, updatedAt := 0 }

/-- A stalled `goodCampaign` state whose only attempt is already terminal. -/
def stStalledDone : PipeState :=
  { campaignStatus := .SENDING, sentAt := some 0,
    sends := [rowASent], job := some jobPrev }

/-- A stored `DRAFT` campaign row with a schedule. -/
def campRow1 : CampaignRow := { id := 1, status := .DRAFT, scheduledAt := some 5 }

/-- A stored campaign row already `SENT`. -/
def campRow2 : CampaignRow := { id := 2, status := .SENT, scheduledAt := none }

/-! ### Lemmas about the batch partition -/

theorem chunkGo_flatten (n : Nat) :
    ∀ (fuel : Nat) (l : List α), l.length ≤ fuel → (chunkGo n fuel l).flatten = l := by
  intro fuel
  induction fuel with
  | zero =>
    intro l hl
    cases l with
    | nil => rfl
    | cons a rest => simp at hl
  | succ fuel ih =>
    intro l hl
    cases l with
    | nil => rfl
    | cons a rest =>
      have hrest : (rest.drop (n - 1)).length ≤ fuel := by
        simp only [List.length_drop]
        simp only [List.length_cons] at hl
        omega
      simp only [chunkGo, List.flatten_cons, ih _ hrest, List.cons_append,
        List.take_append_drop]

theorem chunkList_flatten (n : Nat) (l : List α) : (chunkList n l).flatten = l :=
  chunkGo_flatten n l.length l le_rfl

theorem chunkGo_mem_length (n : Nat) (hn : 0 < n) :
    ∀ (fuel : Nat) (l b : List α), b ∈ chunkGo n fuel l →
      0 < b.length ∧ b.length ≤ n := by
  intro fuel
  induction fuel with
  | zero =>
    intro l b hb
    cases l with
    | nil => simp [chunkGo] at hb
    | cons a rest => simp [chunkGo] at hb
  | succ fuel ih =>
    intro l b hb
    cases l with
    | nil => simp [chunkGo] at hb
    | cons a rest =>
      simp only [chunkGo, List.mem_cons] at hb
      rcases hb with hb | hb
      · subst hb
        constructor
        · simp
        · simp only [List.length_cons, List.length_take]
          omega
      · exact ih _ _ hb

theorem chunkList_mem_length (n : Nat) (hn : 0 < n) (l b : List α)
    (hb : b ∈ chunkList n l) : 0 < b.length ∧ b.length ≤ n :=
  chunkGo_mem_length n hn l.length l b hb

theorem chunkGo_dropLast_length (n : Nat) (hn : 0 < n) :
    ∀ (fuel : Nat) (l b : List α), l.length ≤ fuel →
      b ∈ (chunkGo n fuel l).dropLast → b.length = n := by
  intro fuel
  induction fuel with
  | zero =>
    intro l b hl hb
    cases l with
    | nil => simp [chunkGo] at hb
    | cons a rest => simp at hl
  | succ fuel ih =>
    intro l b hl hb
    cases l with
    | nil => simp [chunkGo] at hb
    | cons a rest =>
      simp only [chunkGo] at hb
      cases htl : chunkGo n fuel (rest.drop (n - 1)) with
      | nil => simp [htl] at hb
      | cons c cs =>
        rw [htl, List.dropLast_cons₂, List.mem_cons] at hb
        have hdrop : rest.drop (n - 1) ≠ [] := by
          intro hd
          rw [hd] at htl
          simp [chunkGo] at htl
        have hlen : n - 1 < rest.length := by
          by_contra hcon
          push_neg at hcon
          exact hdrop (List.drop_eq_nil_of_le hcon)
        rcases hb with hb | hb
        · subst hb
          simp only [List.length_cons, List.length_take]
          omega
        · have hrest : (rest.drop (n - 1)).length ≤ fuel := by
            simp only [List.length_drop]
            simp only [List.length_cons] at hl
            omega
          exact ih _ _ hrest (by rw [htl]; exact hb)

theorem chunkList_dropLast_length (n : Nat) (hn : 0 < n) (l b : List α)
    (hb : b ∈ (chunkList n l).dropLast) : b.length = n :=
  chunkGo_dropLast_length n hn l.length l b le_rfl hb

/-! ### Lemmas about the attempt-row store -/

theorem failedMark_emailId (msg : String) (now : Nat) (r : EmailSend) :
    (failedMark msg now r).emailId = r.emailId := rfl

theorem failedMark_campaignId (msg : String) (now : Nat) (r : EmailSend) :
    (failedMark msg now r).campaignId = r.campaignId := rfl

theorem sentMark_emailId (now : Nat) (r : EmailSend) :
    (sentMark now r).emailId = r.emailId := rfl

theorem sentMark_campaignId (now : Nat) (r : EmailSend) :
    (sentMark now r).campaignId = r.campaignId := rfl

/-- Key fields survive both row markers. -/
theorem keyMatches_of_preserving (f : EmailSend → EmailSend)
    (hfe : ∀ r, (f r).emailId = r.emailId)
    (hfc : ∀ r, (f r).campaignId = r.campaignId)
    (eid cid : Nat) (r : EmailSend) :
    keyMatches eid cid (f r) = keyMatches eid cid r := by
  simp [keyMatches, hfe, hfc]

theorem length_updateFirstSend (l : List EmailSend) (eid cid : Nat)
    (f : EmailSend → EmailSend) :
    (updateFirstSend l eid cid f).length = l.length := by
  induction l with
  | nil => rfl
  | cons s rest ih =>
    simp only [updateFirstSend]
    split
    · simp
    · simp [ih]

theorem findSend_updateFirstSend_other (l : List EmailSend) (eid cid : Nat)
    (f : EmailSend → EmailSend)
    (hfe : ∀ r, (f r).emailId = r.emailId)
    (hfc : ∀ r, (f r).campaignId = r.campaignId)
    (eid' cid' : Nat) (h : ¬ (eid' = eid ∧ cid' = cid)) :
    findSend (updateFirstSend l eid cid f) eid' cid' = findSend l eid' cid' := by
  induction l with
  | nil => rfl
  | cons s rest ih =>
    simp only [updateFirstSend]
    by_cases hkey : keyMatches eid cid s = true
    · rw [if_pos hkey]
      simp only [keyMatches, Bool.and_eq_true, decide_eq_true_eq] at hkey
      have hnot : keyMatches eid' cid' s = false := by
        simp only [keyMatches, hkey.1, hkey.2, Bool.and_eq_false_iff,
          decide_eq_false_iff_not]
        omega
      have hnotf : keyMatches eid' cid' (f s) = false := by
        rw [keyMatches_of_preserving f hfe hfc]
        exact hnot
      have hnot' : ¬ keyMatches eid' cid' s = true := by simp [hnot]
      have hnotf' : ¬ keyMatches eid' cid' (f s) = true := by simp [hnotf]
      simp only [findSend]
      rw [List.find?_cons_of_neg rest hnotf', List.find?_cons_of_neg rest hnot']
    · rw [if_neg hkey]
      simp only [findSend, List.find?_cons]
      cases hks : keyMatches eid' cid' s with
      | true => rfl
      | false => exact ih

theorem findSend_updateFirstSend_self (l : List EmailSend) (eid cid : Nat)
    (f : EmailSend → EmailSend)
    (hfe : ∀ r, (f r).emailId = r.emailId)
    (hfc : ∀ r, (f r).campaignId = r.campaignId)
    (s : EmailSend) (h : findSend l eid cid = some s) :
    findSend (updateFirstSend l eid cid f) eid cid = some (f s) := by
  induction l with
  | nil => simp [findSend] at h
  | cons a rest ih =>
    simp only [updateFirstSend]
    by_cases hkey : keyMatches eid cid a = true
    · rw [if_pos hkey]
      have ha : a = s := by
        simp only [findSend, List.find?_cons_of_pos _ hkey] at h
        exact Option.some.inj h
      subst ha
      have hkf : keyMatches eid cid (f a) = true := by
        rw [keyMatches_of_preserving f hfe hfc]
        exact hkey
      simp [findSend, List.find?_cons_of_pos _ hkf]
    · rw [if_neg hkey]
      have hkey' : keyMatches eid cid a = false := by
        cases hk : keyMatches eid cid a with
        | true => exact absurd hk hkey
        | false => rfl
      have hkey'' : ¬ keyMatches eid cid a = true := by simp [hkey']
      simp only [findSend, List.find?_cons_of_neg rest hkey''] at h
      simp only [findSend]
      rw [List.find?_cons_of_neg (updateFirstSend rest eid cid f) hkey'']
      exact ih h

theorem findSend_append_fresh (l : List EmailSend) (eid cid now : Nat)
    (h : findSend l eid cid = none) :
    findSend (l ++ [freshSend eid cid now]) eid cid =
      some (freshSend eid cid now) := by
  have hk : keyMatches eid cid (freshSend eid cid now) = true := by
    simp [keyMatches, freshSend]
  simp only [findSend] at h ⊢
  rw [List.find?_append, h, Option.none_or]
  rw [List.find?_cons_of_pos _ hk]

theorem findSend_append_other (l : List EmailSend) (s : EmailSend)
    (eid cid : Nat) (h : keyMatches eid cid s = false) :
    findSend (l ++ [s]) eid cid = findSend l eid cid := by
  simp only [findSend, List.find?_append]
  cases hf : l.find? (keyMatches eid cid) with
  | some r => rfl
  | none =>
    simp only [Option.none_or]
    have h' : ¬ keyMatches eid cid s = true := by simp [h]
    rw [List.find?_cons_of_neg [] h', List.find?_nil]

theorem countKey_append (l : List EmailSend) (s : EmailSend) (eid cid : Nat) :
    countKey (l ++ [s]) eid cid =
      countKey l eid cid + (if keyMatches eid cid s then 1 else 0) := by
  simp only [countKey, List.filter_append, List.length_append]
  cases hk : keyMatches eid cid s with
  | true => simp [List.filter_cons, hk]
  | false => simp [List.filter_cons, hk]

theorem countKey_updateFirstSend (l : List EmailSend) (eid cid : Nat)
    (f : EmailSend → EmailSend)
    (hfe : ∀ r, (f r).emailId = r.emailId)
    (hfc : ∀ r, (f r).campaignId = r.campaignId)
    (eid' cid' : Nat) :
    countKey (updateFirstSend l eid cid f) eid' cid' = countKey l eid' cid' := by
  induction l with
  | nil => rfl
  | cons s rest ih =>
    simp only [updateFirstSend]
    split
    · next hkey =>
      have hpres : keyMatches eid' cid' (f s) = keyMatches eid' cid' s :=
        keyMatches_of_preserving f hfe hfc eid' cid' s
      simp only [countKey, List.filter_cons, hpres]
      cases keyMatches eid' cid' s <;> simp
    · simp only [countKey, List.filter_cons] at ih ⊢
      cases keyMatches eid' cid' s <;> simp [ih]

theorem countKey_eq_zero_iff (l : List EmailSend) (eid cid : Nat) :
    countKey l eid cid = 0 ↔ findSend l eid cid = none := by
  simp [countKey, findSend, List.length_eq_zero, List.filter_eq_nil_iff,
    List.find?_eq_none]

/-! ### Lemmas about the bulk-job counters -/

theorem updateBulkJobStats_sends (bid : Nat) (succ : Bool) (now : Nat)
    (st : PipeState) :
    (updateBulkJobStats bid succ now st).sends = st.sends := by
  rcases hj : st.job with _ | j <;> simp only [updateBulkJobStats, hj]
  split
  · split <;> rfl
  · rfl

theorem updateBulkJobStats_none (bid : Nat) (succ : Bool) (now : Nat)
    (st : PipeState) (hj : st.job = none) :
    updateBulkJobStats bid succ now st = st := by
  simp only [updateBulkJobStats, hj]

theorem updateBulkJobStats_step (st : PipeState) (j : BulkJob) (bid : Nat)
    (succ : Bool) (now : Nat) (hj : st.job = some j) (hid : j.id = bid) :
    ∃ j', (updateBulkJobStats bid succ now st).job = some j'
      ∧ j'.id = j.id ∧ j'.campaignId = j.campaignId
      ∧ j'.totalEmails = j.totalEmails
      ∧ j'.processedEmails = j.processedEmails + 1
      ∧ j'.status =
          (if j.totalEmails ≤ j.processedEmails + 1 then "completed" else j.status)
      ∧ (updateBulkJobStats bid succ now st).campaignStatus =
          (if j.totalEmails ≤ j.processedEmails + 1 then CStatus.SENT
           else st.campaignStatus) := by
  simp only [updateBulkJobStats, hj, hid, if_pos]
  by_cases hc : j.totalEmails ≤ j.processedEmails + 1
  · simp only [if_pos hc]
    exact ⟨_, rfl, by simp [completeJob], by simp [completeJob],
      by simp [completeJob], by simp [completeJob], by simp [completeJob, hc],
      by simp [hc]⟩
  · simp only [if_neg hc]
    exact ⟨_, rfl, by simp, by simp, by simp, by simp, by simp [hc], by simp [hc]⟩

theorem sendSingleEmail_job_step (env : Env) (c : CampaignData) (e : EmailRec)
    (o : SendOutcome) (bid now : Nat) (st : PipeState) (j : BulkJob)
    (hj : st.job = some j) (hid : j.id = bid) :
    ∃ j', (sendSingleEmail env c e o bid now st).job = some j'
      ∧ j'.id = j.id ∧ j'.campaignId = j.campaignId
      ∧ j'.totalEmails = j.totalEmails
      ∧ j'.processedEmails = j.processedEmails + 1
      ∧ j'.status =
          (if j.totalEmails ≤ j.processedEmails + 1 then "completed" else j.status)
      ∧ (sendSingleEmail env c e o bid now st).campaignStatus =
          (if j.totalEmails ≤ j.processedEmails + 1 then CStatus.SENT
           else st.campaignStatus) := by
  have key : ∀ (succ : Bool) (sends2 : List EmailSend),
      ∃ j', (updateBulkJobStats bid succ now { st with sends := sends2 }).job = some j'
        ∧ j'.id = j.id ∧ j'.campaignId = j.campaignId
        ∧ j'.totalEmails = j.totalEmails
        ∧ j'.processedEmails = j.processedEmails + 1
        ∧ j'.status =
            (if j.totalEmails ≤ j.processedEmails + 1 then "completed" else j.status)
        ∧ (updateBulkJobStats bid succ now { st with sends := sends2 }).campaignStatus =
            (if j.totalEmails ≤ j.processedEmails + 1 then CStatus.SENT
             else st.campaignStatus) := by
    intro succ sends2
    exact updateBulkJobStats_step { st with sends := sends2 } j bid succ now hj hid
  unfold sendSingleEmail
  cases configureProviderForDomain env c.domain with
  | error msg => exact key false _
  | ok u =>
    cases o with
    | err msg => exact key false _
    | ok msgId =>
      dsimp only
      by_cases hm : msgId = ""
      · rw [if_pos hm]
        exact key false _
      · rw [if_neg hm]
        exact key true _

theorem fold_send_job (env : Env) (c : CampaignData) (outcomes : Nat → SendOutcome)
    (bid now : Nat) :
    ∀ (l : List EmailRec) (st : PipeState) (j : BulkJob),
      st.job = some j → j.id = bid →
      j.processedEmails + l.length ≤ j.totalEmails →
      ∃ j', (l.foldl (fun acc e =>
              sendSingleEmail env c e (outcomes e.id) bid now acc) st).job = some j'
        ∧ j'.id = j.id ∧ j'.campaignId = j.campaignId
        ∧ j'.totalEmails = j.totalEmails
        ∧ j'.processedEmails = j.processedEmails + l.length
        ∧ j'.status =
            (if l ≠ [] ∧ j.processedEmails + l.length = j.totalEmails then "completed"
             else j.status)
        ∧ (l.foldl (fun acc e =>
              sendSingleEmail env c e (outcomes e.id) bid now acc) st).campaignStatus =
            (if l ≠ [] ∧ j.processedEmails + l.length = j.totalEmails then CStatus.SENT
             else st.campaignStatus) := by
  intro l
  induction l with
  | nil =>
    intro st j hj hid hle
    exact ⟨j, by simpa using hj, rfl, rfl, rfl, by simp, by simp, by simp⟩
  | cons e rest ih =>
    intro st j hj hid hle
    obtain ⟨j1, hj1, hid1, hcid1, htot1, hproc1, hstat1, hcs1⟩ :=
      sendSingleEmail_job_step env c e (outcomes e.id) bid now st j hj hid
    have hid1' : j1.id = bid := by rw [hid1]; exact hid
    have hle1 : j1.processedEmails + rest.length ≤ j1.totalEmails := by
      rw [hproc1, htot1]
      simp only [List.length_cons] at hle
      omega
    obtain ⟨jf, hjf, hidf, hcidf, htotf, hprocf, hstatf, hcsf⟩ :=
      ih (sendSingleEmail env c e (outcomes e.id) bid now st) j1 hj1 hid1' hle1
    refine ⟨jf, by simpa [List.foldl_cons] using hjf, by rw [hidf, hid1],
      by rw [hcidf, hcid1], by rw [htotf, htot1],
      by rw [hprocf, hproc1]; simp [List.length_cons]; omega, ?_, ?_⟩
    · rw [hstatf, hproc1, htot1, hstat1]
      simp only [List.length_cons] at hle ⊢
      by_cases h1 : rest = []
      · subst h1
        simp only [List.length_nil, Nat.add_zero, ne_eq, not_true_eq_false,
          false_and, if_false]
        by_cases h2 : j.processedEmails + 1 = j.totalEmails
        · simp [h2, Nat.le_of_eq h2.symm]
        · have : ¬ j.totalEmails ≤ j.processedEmails + 1 := by omega
          simp [h2, this]
      · by_cases h2 : j.processedEmails + (rest.length + 1) = j.totalEmails
        · have h2' : j.processedEmails + 1 + rest.length = j.totalEmails := by omega
          simp [h1, h2, h2']
        · have h2' : ¬ (j.processedEmails + 1 + rest.length = j.totalEmails) := by
            omega
          have h3 : ¬ j.totalEmails ≤ j.processedEmails + 1 := by omega
          simp [h1, h2, h2', h3]
    · simp only [List.foldl_cons]
      rw [hcsf, hproc1, htot1, hcs1]
      simp only [List.length_cons] at hle ⊢
      by_cases h1 : rest = []
      · subst h1
        simp only [List.length_nil, Nat.add_zero, ne_eq, not_true_eq_false,
          false_and, if_false]
        by_cases h2 : j.processedEmails + 1 = j.totalEmails
        · simp [h2, Nat.le_of_eq h2.symm]
        · have : ¬ j.totalEmails ≤ j.processedEmails + 1 := by omega
          simp [h2, this]
      · by_cases h2 : j.processedEmails + (rest.length + 1) = j.totalEmails
        · have h2' : j.processedEmails + 1 + rest.length = j.totalEmails := by omega
          simp [h1, h2, h2']
        · have h2' : ¬ (j.processedEmails + 1 + rest.length = j.totalEmails) := by
            omega
          have h3 : ¬ j.totalEmails ≤ j.processedEmails + 1 := by omega
          simp [h1, h2, h2', h3]

theorem upsertBulkJob_spec (c : CampaignData) (fid now : Nat) (st : PipeState) :
    ∃ j0, (upsertBulkJob c fid now st).job = some j0
      ∧ j0.id = dispatchJobId c fid now st
      ∧ j0.processedEmails = 0
      ∧ j0.totalEmails = c.emails.length
      ∧ j0.status = "processing"
      ∧ (upsertBulkJob c fid now st).campaignStatus = st.campaignStatus
      ∧ (upsertBulkJob c fid now st).sends = st.sends := by
  rcases hj : st.job with _ | j <;> simp [upsertBulkJob, dispatchJobId, hj]

theorem processDirect_eq_fold (env : Env) (c : CampaignData)
    (outcomes : Nat → SendOutcome) (fid now : Nat) (st : PipeState) :
    processCampaignEmailsDirectly env c outcomes fid now st =
      c.emails.foldl
        (fun acc e => sendSingleEmail env c e (outcomes e.id)
          (dispatchJobId c fid now st) now acc)
        (upsertBulkJob c fid now st) := by
  unfold processCampaignEmailsDirectly processBatch dispatchJobId
  rw [← List.foldl_flatten, chunkList_flatten]

theorem dispatch_pass_job (env : Env) (c : CampaignData)
    (outcomes : Nat → SendOutcome) (fid now : Nat) (st : PipeState) :
    ∃ j', (processCampaignEmailsDirectly env c outcomes fid now st).job = some j'
      ∧ j'.totalEmails = c.emails.length
      ∧ j'.processedEmails = c.emails.length
      ∧ j'.status = (if c.emails ≠ [] then "completed" else "processing")
      ∧ (processCampaignEmailsDirectly env c outcomes fid now st).campaignStatus =
          (if c.emails ≠ [] then CStatus.SENT else st.campaignStatus) := by
  obtain ⟨j0, hj0, hid0, hproc0, htot0, hstat0, hcs0, hsends0⟩ :=
    upsertBulkJob_spec c fid now st
  rw [processDirect_eq_fold]
  obtain ⟨j', hj', hid', hcid', htot', hproc', hstat', hcs'⟩ :=
    fold_send_job env c outcomes (dispatchJobId c fid now st) now c.emails
      (upsertBulkJob c fid now st) j0 hj0 hid0
      (by rw [hproc0, htot0]; simp)
  have hcond : (c.emails ≠ [] ∧ j0.processedEmails + c.emails.length = j0.totalEmails)
      ↔ c.emails ≠ [] := by
    rw [hproc0, htot0]
    simp
  refine ⟨j', hj', by rw [htot', htot0], by rw [hproc', hproc0]; simp, ?_, ?_⟩
  · rw [hstat', hstat0]
    by_cases hne : c.emails = [] <;> simp [hne, hproc0, htot0]
  · rw [hcs', hcs0]
    by_cases hne : c.emails = [] <;> simp [hne, hproc0, htot0]

theorem dispatch_prefix_job (env : Env) (c : CampaignData)
    (outcomes : Nat → SendOutcome) (fid now : Nat) (st : PipeState) (k : Nat)
    (hk : k ≤ c.emails.length) :
    ∃ j', (dispatchPrefix env c outcomes fid now st k).job = some j'
      ∧ j'.totalEmails = c.emails.length
      ∧ j'.processedEmails = k
      ∧ j'.status = (if k ≠ 0 ∧ k = c.emails.length then "completed" else "processing")
      ∧ (dispatchPrefix env c outcomes fid now st k).campaignStatus =
          (if k ≠ 0 ∧ k = c.emails.length then CStatus.SENT else st.campaignStatus) := by
  unfold dispatchPrefix
  obtain ⟨j0, hj0, hid0, hproc0, htot0, hstat0, hcs0, hsends0⟩ :=
    upsertBulkJob_spec c fid now st
  have hlen : (c.emails.take k).length = k := by
    rw [List.length_take]
    omega
  obtain ⟨j', hj', hid', hcid', htot', hproc', hstat', hcs'⟩ :=
    fold_send_job env c outcomes (dispatchJobId c fid now st) now (c.emails.take k)
      (upsertBulkJob c fid now st) j0 hj0 hid0
      (by rw [hproc0, htot0, hlen]; omega)
  have hnil : (c.emails.take k = []) ↔ (k = 0 ∨ c.emails = []) := List.take_eq_nil_iff
  refine ⟨j', hj', by rw [htot', htot0], by rw [hproc', hproc0, hlen]; simp, ?_, ?_⟩
  · rw [hstat', hstat0, hproc0, htot0, hlen]
    by_cases h0 : k = 0
    · simp [h0]
    · have hne : ¬ (c.emails.take k = []) := by
        rw [hnil]
        rintro (h | h)
        · exact h0 h
        · rw [h] at hk
          simp at hk
          exact h0 hk
      simp [hne, h0]
  · rw [hcs', hcs0, hproc0, htot0, hlen]
    by_cases h0 : k = 0
    · simp [h0]
    · have hne : ¬ (c.emails.take k = []) := by
        rw [hnil]
        rintro (h | h)
        · exact h0 h
        · rw [h] at hk
          simp at hk
          exact h0 hk
      simp [hne, h0]

/-! ### Lemmas about the per-recipient row effects of `sendSingleEmail` -/

theorem findOrCreateSend_fst (sends : List EmailSend) (eid cid now : Nat) :
    (findOrCreateSend sends eid cid now).1 =
      (findSend sends eid cid).getD (freshSend eid cid now) := by
  cases h : findSend sends eid cid <;> simp [findOrCreateSend, h]

theorem findSend_findOrCreateSend_snd (sends : List EmailSend) (eid cid now : Nat) :
    findSend (findOrCreateSend sends eid cid now).2 eid cid =
      some ((findOrCreateSend sends eid cid now).1) := by
  cases h : findSend sends eid cid with
  | none => simp [findOrCreateSend, h, findSend_append_fresh _ _ _ _ h]
  | some s => simp [findOrCreateSend, h]

theorem findOrCreateSend_snd_other (sends : List EmailSend) (eid cid now : Nat)
    (eid' cid' : Nat) (h : ¬ (eid' = eid ∧ cid' = cid)) :
    findSend (findOrCreateSend sends eid cid now).2 eid' cid' =
      findSend sends eid' cid' := by
  cases hf : findSend sends eid cid with
  | none =>
    simp only [findOrCreateSend, hf]
    apply findSend_append_other
    simp only [keyMatches, freshSend, Bool.and_eq_false_iff,
      decide_eq_false_iff_not]
    omega
  | some s => simp [findOrCreateSend, hf]

theorem countKey_findOrCreateSend_snd_self (sends : List EmailSend)
    (eid cid now : Nat) :
    countKey (findOrCreateSend sends eid cid now).2 eid cid =
      (if countKey sends eid cid = 0 then 1 else countKey sends eid cid) := by
  cases hf : findSend sends eid cid with
  | none =>
    have h0 : countKey sends eid cid = 0 := (countKey_eq_zero_iff _ _ _).mpr hf
    have hk : keyMatches eid cid (freshSend eid cid now) = true := by
      simp [keyMatches, freshSend]
    simp [findOrCreateSend, hf, countKey_append, hk, h0]
  | some s =>
    have h0 : countKey sends eid cid ≠ 0 := by
      rw [Ne, countKey_eq_zero_iff, hf]
      simp
    simp [findOrCreateSend, hf, h0]

theorem countKey_findOrCreateSend_snd_other (sends : List EmailSend)
    (eid cid now : Nat) (eid' cid' : Nat) (h : ¬ (eid' = eid ∧ cid' = cid)) :
    countKey (findOrCreateSend sends eid cid now).2 eid' cid' =
      countKey sends eid' cid' := by
  cases hf : findSend sends eid cid with
  | none =>
    have hk : keyMatches eid' cid' (freshSend eid cid now) = false := by
      simp only [keyMatches, freshSend, Bool.and_eq_false_iff,
        decide_eq_false_iff_not]
      omega
    simp [findOrCreateSend, hf, countKey_append, hk]
  | some s => simp [findOrCreateSend, hf]

theorem redispatchedRow_emailId (env : Env) (c : CampaignData) (o : SendOutcome)
    (now : Nat) (r : EmailSend) :
    (redispatchedRow env c o now r).emailId = r.emailId := by
  cases hconf : configureProviderForDomain env c.domain with
  | error msg => simp [redispatchedRow, hconf, failedMark]
  | ok u =>
    cases o with
    | err msg => simp [redispatchedRow, hconf, failedMark]
    | ok m =>
      by_cases hm : m = "" <;>
        simp [redispatchedRow, hconf, hm, failedMark, sentMark]

theorem redispatchedRow_campaignId (env : Env) (c : CampaignData) (o : SendOutcome)
    (now : Nat) (r : EmailSend) :
    (redispatchedRow env c o now r).campaignId = r.campaignId := by
  cases hconf : configureProviderForDomain env c.domain with
  | error msg => simp [redispatchedRow, hconf, failedMark]
  | ok u =>
    cases o with
    | err msg => simp [redispatchedRow, hconf, failedMark]
    | ok m =>
      by_cases hm : m = "" <;>
        simp [redispatchedRow, hconf, hm, failedMark, sentMark]

/-- Every `sendSingleEmail` dispatch leaves its row either `FAILED` with the
retry counter incremented by one, or `SENT` with the retry counter
untouched. -/
theorem redispatchedRow_cases (env : Env) (c : CampaignData) (o : SendOutcome)
    (now : Nat) (r : EmailSend) :
    ((redispatchedRow env c o now r).status = SStatus.FAILED ∧
      (redispatchedRow env c o now r).retries = r.retries + 1) ∨
    ((redispatchedRow env c o now r).status = SStatus.SENT ∧
      (redispatchedRow env c o now r).retries = r.retries) := by
  cases hconf : configureProviderForDomain env c.domain with
  | error msg => left; simp [redispatchedRow, hconf, failedMark]
  | ok u =>
    cases o with
    | err msg => left; simp [redispatchedRow, hconf, failedMark]
    | ok m =>
      by_cases hm : m = ""
      · left; simp [redispatchedRow, hconf, hm, failedMark]
      · right; simp [redispatchedRow, hconf, hm, sentMark]

theorem sendSingleEmail_sends (env : Env) (c : CampaignData) (e : EmailRec)
    (o : SendOutcome) (bid now : Nat) (st : PipeState) :
    (sendSingleEmail env c e o bid now st).sends =
      updateFirstSend (findOrCreateSend st.sends e.id c.id now).2 e.id c.id
        (redispatchedRow env c o now) := by
  unfold sendSingleEmail
  cases hconf : configureProviderForDomain env c.domain with
  | error msg =>
    dsimp only
    rw [updateBulkJobStats_sends]
    try dsimp only
    congr 1
    funext r
    simp [redispatchedRow, hconf]
  | ok u =>
    cases o with
    | err msg =>
      dsimp only
      rw [updateBulkJobStats_sends]
      try dsimp only
      congr 1
      funext r
      simp [redispatchedRow, hconf]
    | ok msgId =>
      dsimp only
      by_cases hm : msgId = ""
      · rw [if_pos hm]
        try dsimp only
        rw [updateBulkJobStats_sends]
        try dsimp only
        congr 1
        funext r
        simp [redispatchedRow, hconf, hm]
      · rw [if_neg hm]
        try dsimp only
        rw [updateBulkJobStats_sends]
        try dsimp only
        congr 1
        funext r
        simp [redispatchedRow, hconf, hm]

theorem findSend_sendSingleEmail_self (env : Env) (c : CampaignData) (e : EmailRec)
    (o : SendOutcome) (bid now : Nat) (st : PipeState) :
    findSend (sendSingleEmail env c e o bid now st).sends e.id c.id =
      some (redispatchedRow env c o now
        ((findSend st.sends e.id c.id).getD (freshSend e.id c.id now))) := by
  rw [sendSingleEmail_sends]
  rw [findSend_updateFirstSend_self _ _ _ _ (redispatchedRow_emailId env c o now)
    (redispatchedRow_campaignId env c o now) _ (findSend_findOrCreateSend_snd _ _ _ _)]
  rw [findOrCreateSend_fst]

theorem findSend_sendSingleEmail_other (env : Env) (c : CampaignData) (e : EmailRec)
    (o : SendOutcome) (bid now : Nat) (st : PipeState) (eid cid : Nat)
    (h : ¬ (eid = e.id ∧ cid = c.id)) :
    findSend (sendSingleEmail env c e o bid now st).sends eid cid =
      findSend st.sends eid cid := by
  rw [sendSingleEmail_sends]
  rw [findSend_updateFirstSend_other _ _ _ _ (redispatchedRow_emailId env c o now)
    (redispatchedRow_campaignId env c o now) _ _ h]
  exact findOrCreateSend_snd_other _ _ _ _ _ _ h

theorem countKey_sendSingleEmail_self (env : Env) (c : CampaignData) (e : EmailRec)
    (o : SendOutcome) (bid now : Nat) (st : PipeState) :
    countKey (sendSingleEmail env c e o bid now st).sends e.id c.id =
      (if countKey st.sends e.id c.id = 0 then 1 else countKey st.sends e.id c.id) := by
  rw [sendSingleEmail_sends]
  rw [countKey_updateFirstSend _ _ _ _ (redispatchedRow_emailId env c o now)
    (redispatchedRow_campaignId env c o now)]
  exact countKey_findOrCreateSend_snd_self _ _ _ _

theorem countKey_sendSingleEmail_other (env : Env) (c : CampaignData) (e : EmailRec)
    (o : SendOutcome) (bid now : Nat) (st : PipeState) (eid cid : Nat)
    (h : ¬ (eid = e.id ∧ cid = c.id)) :
    countKey (sendSingleEmail env c e o bid now st).sends eid cid =
      countKey st.sends eid cid := by
  rw [sendSingleEmail_sends]
  rw [countKey_updateFirstSend _ _ _ _ (redispatchedRow_emailId env c o now)
    (redispatchedRow_campaignId env c o now)]
  exact countKey_findOrCreateSend_snd_other _ _ _ _ _ _ h

/-! ### Fold-level lemmas over a dispatch pass -/

theorem fold_send_other (env : Env) (c : CampaignData) (outcomes : Nat → SendOutcome)
    (bid now : Nat) :
    ∀ (l : List EmailRec) (st : PipeState) (eid cid : Nat),
      (∀ e' ∈ l, ¬ (eid = e'.id ∧ cid = c.id)) →
      findSend ((l.foldl (fun acc e =>
          sendSingleEmail env c e (outcomes e.id) bid now acc) st).sends) eid cid =
        findSend st.sends eid cid := by
  intro l
  induction l with
  | nil => intro st eid cid _; rfl
  | cons a rest ih =>
    intro st eid cid h
    simp only [List.foldl_cons]
    rw [ih _ _ _ (fun e' he' => h e' (List.mem_cons_of_mem a he'))]
    exact findSend_sendSingleEmail_other env c a (outcomes a.id) bid now st eid cid
      (h a (List.mem_cons_self a rest))

theorem fold_send_rows (env : Env) (c : CampaignData) (outcomes : Nat → SendOutcome)
    (bid now : Nat) :
    ∀ (l : List EmailRec) (st : PipeState),
      (l.map (fun e => e.id)).Nodup →
      ∀ e ∈ l,
        findSend ((l.foldl (fun acc e =>
            sendSingleEmail env c e (outcomes e.id) bid now acc) st).sends) e.id c.id =
          some (redispatchedRow env c (outcomes e.id) now
            ((findSend st.sends e.id c.id).getD (freshSend e.id c.id now))) := by
  intro l
  induction l with
  | nil => intro st _ e he; exact absurd he (List.not_mem_nil e)
  | cons a rest ih =>
    intro st hnodup e he
    simp only [List.map_cons, List.nodup_cons, List.mem_map] at hnodup
    rcases List.mem_cons.mp he with he | he
    · subst he
      simp only [List.foldl_cons]
      rw [fold_send_other env c outcomes bid now rest _ e.id c.id ?hother]
      · exact findSend_sendSingleEmail_self env c e (outcomes e.id) bid now st
      case hother =>
        intro e' he'
        rintro ⟨hid, -⟩
        exact hnodup.1 ⟨e', he', hid.symm⟩
    · have hne : e.id ≠ a.id := by
        intro hcon
        exact hnodup.1 ⟨e, he, hcon⟩
      simp only [List.foldl_cons]
      rw [ih _ hnodup.2 e he]
      rw [findSend_sendSingleEmail_other env c a (outcomes a.id) bid now st e.id c.id
        (by rintro ⟨hid, -⟩; exact hne hid)]

theorem fold_send_count_other (env : Env) (c : CampaignData)
    (outcomes : Nat → SendOutcome) (bid now : Nat) :
    ∀ (l : List EmailRec) (st : PipeState) (eid cid : Nat),
      (∀ e' ∈ l, ¬ (eid = e'.id ∧ cid = c.id)) →
      countKey ((l.foldl (fun acc e =>
          sendSingleEmail env c e (outcomes e.id) bid now acc) st).sends) eid cid =
        countKey st.sends eid cid := by
  intro l
  induction l with
  | nil => intro st eid cid _; rfl
  | cons a rest ih =>
    intro st eid cid h
    simp only [List.foldl_cons]
    rw [ih _ _ _ (fun e' he' => h e' (List.mem_cons_of_mem a he'))]
    exact countKey_sendSingleEmail_other env c a (outcomes a.id) bid now st eid cid
      (h a (List.mem_cons_self a rest))

theorem fold_send_count_mem (env : Env) (c : CampaignData)
    (outcomes : Nat → SendOutcome) (bid now : Nat) :
    ∀ (l : List EmailRec) (st : PipeState),
      (l.map (fun e => e.id)).Nodup →
      ∀ e ∈ l,
        countKey ((l.foldl (fun acc e =>
            sendSingleEmail env c e (outcomes e.id) bid now acc) st).sends) e.id c.id =
          (if countKey st.sends e.id c.id = 0 then 1 else countKey st.sends e.id c.id) := by
  intro l
  induction l with
  | nil => intro st _ e he; exact absurd he (List.not_mem_nil e)
  | cons a rest ih =>
    intro st hnodup e he
    simp only [List.map_cons, List.nodup_cons, List.mem_map] at hnodup
    rcases List.mem_cons.mp he with he | he
    · subst he
      simp only [List.foldl_cons]
      rw [fold_send_count_other env c outcomes bid now rest _ e.id c.id ?hother]
      · exact countKey_sendSingleEmail_self env c e (outcomes e.id) bid now st
      case hother =>
        intro e' he'
        rintro ⟨hid, -⟩
        exact hnodup.1 ⟨e', he', hid.symm⟩
    · have hne : e.id ≠ a.id := by
        intro hcon
        exact hnodup.1 ⟨e, he, hcon⟩
      simp only [List.foldl_cons]
      rw [ih _ hnodup.2 e he]
      rw [countKey_sendSingleEmail_other env c a (outcomes a.id) bid now st e.id c.id
        (by rintro ⟨hid, -⟩; exact hne hid)]

theorem updateBulkJobStats_campaignStatus (bid : Nat) (succ : Bool) (now : Nat)
    (st : PipeState) :
    (updateBulkJobStats bid succ now st).campaignStatus = st.campaignStatus ∨
      (updateBulkJobStats bid succ now st).campaignStatus = CStatus.SENT := by
  rcases hj : st.job with _ | j
  · left; rw [updateBulkJobStats_none _ _ _ _ hj]
  · simp only [updateBulkJobStats, hj]
    split
    · split
      · right; rfl
      · left; rfl
    · left; rfl

theorem sendSingleEmail_campaignStatus (env : Env) (c : CampaignData) (e : EmailRec)
    (o : SendOutcome) (bid now : Nat) (st : PipeState) :
    (sendSingleEmail env c e o bid now st).campaignStatus = st.campaignStatus ∨
      (sendSingleEmail env c e o bid now st).campaignStatus = CStatus.SENT := by
  unfold sendSingleEmail
  cases configureProviderForDomain env c.domain with
  | error msg => exact updateBulkJobStats_campaignStatus bid false now _
  | ok u =>
    cases o with
    | err msg => exact updateBulkJobStats_campaignStatus bid false now _
    | ok msgId =>
      dsimp only
      by_cases hm : msgId = ""
      · rw [if_pos hm]
        exact updateBulkJobStats_campaignStatus bid false now _
      · rw [if_neg hm]
        exact updateBulkJobStats_campaignStatus bid true now _

theorem fold_send_campaignStatus (env : Env) (c : CampaignData)
    (outcomes : Nat → SendOutcome) (bid now : Nat) :
    ∀ (l : List EmailRec) (st : PipeState),
      (l.foldl (fun acc e =>
          sendSingleEmail env c e (outcomes e.id) bid now acc) st).campaignStatus =
        st.campaignStatus ∨
      (l.foldl (fun acc e =>
          sendSingleEmail env c e (outcomes e.id) bid now acc) st).campaignStatus =
        CStatus.SENT := by
  intro l
  induction l with
  | nil => intro st; left; rfl
  | cons a rest ih =>
    intro st
    simp only [List.foldl_cons]
    rcases ih (sendSingleEmail env c a (outcomes a.id) bid now st) with h | h
    · rcases sendSingleEmail_campaignStatus env c a (outcomes a.id) bid now st with
        h2 | h2
      · left; rw [h, h2]
      · right; rw [h, h2]
    · right; exact h

theorem processDirect_campaignStatus (env : Env) (c : CampaignData)
    (outcomes : Nat → SendOutcome) (fid now : Nat) (st : PipeState) :
    (processCampaignEmailsDirectly env c outcomes fid now st).campaignStatus =
        st.campaignStatus ∨
      (processCampaignEmailsDirectly env c outcomes fid now st).campaignStatus =
        CStatus.SENT := by
  rw [processDirect_eq_fold]
  obtain ⟨j0, hj0, hid0, hproc0, htot0, hstat0, hcs0, hsends0⟩ :=
    upsertBulkJob_spec c fid now st
  rcases fold_send_campaignStatus env c outcomes (dispatchJobId c fid now st) now
      c.emails (upsertBulkJob c fid now st) with h | h
  · left; rw [h, hcs0]
  · right; exact h

/-! ### Lemmas about the retry sweep -/

theorem findOrCreateSend_of_found (sends : List EmailSend) (eid cid now : Nat)
    (s : EmailSend) (h : findSend sends eid cid = some s) :
    findOrCreateSend sends eid cid now = (s, sends) := by
  simp [findOrCreateSend, h]

theorem findOrCreateSend_of_absent (sends : List EmailSend) (eid cid now : Nat)
    (h : findSend sends eid cid = none) :
    findOrCreateSend sends eid cid now =
      (freshSend eid cid now, sends ++ [freshSend eid cid now]) := by
  simp [findOrCreateSend, h]

theorem retryRedispatchList_singleton (now : Nat) (s : EmailSend) :
    retryRedispatchList now [s] =
      (if retryQueryPred now s ∧ retryDuePred now s then [s] else []) := by
  cases hq : retryQueryPred now s <;> cases hd : retryDuePred now s <;>
    simp [retryRedispatchList, List.filter, hq, hd]

theorem sendSingleEmail_singleton_row (env : Env) (c : CampaignData)
    (o : SendOutcome) (bid now : Nat) (cs : CStatus) (sa : Option Nat)
    (jb : Option BulkJob) (s : EmailSend) (hc : c.id = s.campaignId) :
    (sendSingleEmail env c (emailRecOf s) o bid now
        { campaignStatus := cs, sentAt := sa, sends := [s], job := jb }).sends =
      [redispatchedRow env c o now s] := by
  rw [sendSingleEmail_sends]
  have hk : keyMatches (emailRecOf s).id c.id s = true := by
    simp [keyMatches, emailRecOf, hc]
  have hf : findSend [s] (emailRecOf s).id c.id = some s := by
    simp only [findSend]
    exact List.find?_cons_of_pos [] hk
  rw [findOrCreateSend_of_found _ _ _ _ _ hf]
  simp [updateFirstSend, hk]

theorem checkFailedEmailsForRetry_singleton (env : Env) (c : CampaignData)
    (outcomes : Nat → SendOutcome) (now : Nat) (cs : CStatus) (sa : Option Nat)
    (jb : Option BulkJob) (s : EmailSend) (hc : c.id = s.campaignId) :
    (checkFailedEmailsForRetry env c outcomes now
        { campaignStatus := cs, sentAt := sa, sends := [s], job := jb }).sends =
      (if retryQueryPred now s ∧ retryDuePred now s
       then [redispatchedRow env c (outcomes s.emailId) now s]
       else [s]) := by
  unfold checkFailedEmailsForRetry
  rw [show ({ campaignStatus := cs, sentAt := sa, sends := [s], job := jb } :
      PipeState).sends = [s] from rfl]
  rw [retryRedispatchList_singleton]
  by_cases h : retryQueryPred now s ∧ retryDuePred now s
  · rw [if_pos h, if_pos h]
    simp only [List.foldl_cons, List.foldl_nil]
    exact sendSingleEmail_singleton_row env c (outcomes s.emailId) s.campaignId now
      cs sa jb s hc
  · rw [if_neg h, if_neg h]
    rfl

theorem checkFailedEmailsForRetry_no_op (env : Env) (c : CampaignData)
    (outcomes : Nat → SendOutcome) (now : Nat) (st : PipeState)
    (h : retryRedispatchList now st.sends = []) :
    checkFailedEmailsForRetry env c outcomes now st = st := by
  unfold checkFailedEmailsForRetry
  rw [h]
  rfl

/-! ### Lemmas about the nodemailer adapter -/

theorem nmLoop_attempts_le (now : Nat) (outcomes : Nat → NetOutcome) :
    ∀ (fuel attempt : Nat) (lastErr : String) (m : ConnMetrics) (rcr : Bool)
      (bo : List Nat),
      (nmLoop now outcomes fuel attempt lastErr m rcr bo).attemptsUsed ≤
        attempt + fuel - 1 := by
  intro fuel
  induction fuel with
  | zero =>
    intro attempt lastErr m rcr bo
    simp only [nmLoop]
    omega
  | succ fuel ih =>
    intro attempt lastErr m rcr bo
    simp only [nmLoop]
    cases houtcome : outcomes attempt with
    | success msgId =>
      dsimp only
      omega
    | failure e =>
      dsimp only
      by_cases hconn : isConnectionError e
      · rw [if_pos hconn]
        by_cases hmax : attempt = NM_MAX_RETRIES
        · rw [if_pos hmax]
          dsimp only
          omega
        · rw [if_neg hmax]
          have := ih (attempt + 1) e.message
            { m with errorCount := m.errorCount + 1, lastError := some now }
            (rcr || decide (attempt = 2)) (bo ++ [2 ^ attempt * 1000])
          omega
      · rw [if_neg hconn]
        dsimp only
        omega

theorem nodemailerSend_attempts_le (now : Nat) (msg : MsgM)
    (outcomes : Nat → NetOutcome) (m : ConnMetrics) :
    (nodemailerSend now msg outcomes m).attemptsUsed ≤ NM_MAX_RETRIES := by
  unfold nodemailerSend
  cases validateEmailMessage msg with
  | error s => simp [NM_MAX_RETRIES]
  | ok u =>
    dsimp only
    split
    · simp [NM_MAX_RETRIES]
    · have := nmLoop_attempts_le now outcomes NM_MAX_RETRIES 1 "" m false []
      simpa [NM_MAX_RETRIES] using this

theorem nodemailerSend_cooling (now : Nat) (msg : MsgM)
    (outcomes : Nat → NetOutcome) (m : ConnMetrics) (t : Nat)
    (hval : validateEmailMessage msg = .ok ()) (ht : m.coolingUntil = some t)
    (hlt : now < t) :
    nodemailerSend now msg outcomes m =
      { result := .coolingRefused, metrics := m, attemptsUsed := 0,
        recreated := false, backoffs := [] } := by
  unfold nodemailerSend
  rw [hval]
  dsimp only
  rw [ht]
  simp [hlt]

/-! ### Lemmas about the stall sweep and completion detection -/

theorem updateBulkJobStats_wrongId (bid : Nat) (succ : Bool) (now : Nat)
    (st : PipeState) (j : BulkJob) (hj : st.job = some j) (hne : ¬ j.id = bid) :
    updateBulkJobStats bid succ now st = st := by
  simp [updateBulkJobStats, hj, hne]

theorem checkStalled_complete (env : Env) (c : CampaignData)
    (outcomes : Nat → SendOutcome) (fid now : Nat) (st : PipeState) (t : Nat)
    (hsending : st.campaignStatus = CStatus.SENDING) (hsa : st.sentAt = some t)
    (ht : t ≤ now - 30 * 60 * 1000)
    (hterm : st.sends.filter (fun s => nonTerminalStatuses.contains s.status) = []) :
    checkStalledSendingCampaigns env c outcomes fid now st =
      { st with campaignStatus := CStatus.SENT } := by
  unfold checkStalledSendingCampaigns
  rw [hsending, hsa, hterm]
  simp [ht]

theorem checkStalled_redispatch (env : Env) (c : CampaignData)
    (outcomes : Nat → SendOutcome) (fid now : Nat) (st : PipeState) (t : Nat)
    (hsending : st.campaignStatus = CStatus.SENDING) (hsa : st.sentAt = some t)
    (ht : t ≤ now - 30 * 60 * 1000)
    (hterm : st.sends.filter (fun s => nonTerminalStatuses.contains s.status) ≠ []) :
    checkStalledSendingCampaigns env c outcomes fid now st =
      processCampaignEmailsDirectly env c outcomes fid now st := by
  unfold checkStalledSendingCampaigns
  rw [hsending, hsa]
  cases hfilter : st.sends.filter (fun s => nonTerminalStatuses.contains s.status) with
  | nil => exact absurd hfilter hterm
  | cons a l =>
    simp [ht]

/-! ### Claim theorems -/

/-- C1: the claim says a campaign whose domain fails validation (here: an
unverified custom-SMTP domain with no sender address and no SMTP credentials)
transitions directly to FAILED with zero DeliveryAttempt rows created.  The
code's `validateDomainForSending` indeed rejects this domain, but the call to
it in `processSingleCampaign` is commented out: the campaign is claimed into
SENDING anyway, one attempt row per valid recipient is created (here 1, in
FAILED), and the completion check then marks the campaign SENT. -/
theorem C1_domain_validation_bypassed :
    validateDomainForSending envEmpty 0 badDomain [] = false ∧
    (processSingleCampaign envEmpty badCampaign (fun _ => SendOutcome.ok "m") 7 0
        emptyState).campaignStatus = CStatus.SENT ∧
    (processSingleCampaign envEmpty badCampaign (fun _ => SendOutcome.ok "m") 7 0
        emptyState).sends.length = 1 ∧
    (processSingleCampaign envEmpty badCampaign (fun _ => SendOutcome.ok "m") 7 0
        emptyState).sends.map (fun r => r.status) = [SStatus.FAILED] := by
  exact ⟨by decide, by decide, by decide, by decide⟩

/-- C2 counterexample: `processedEmails` decreases under a stall-recovery
re-dispatch.  `stStalled` holds a bulk job with `processedEmails = 3`; the
stall sweep re-runs the dispatch pass, whose upsert resets the counter to 0,
and the two re-sends leave it at 2 < 3. -/
theorem C2_counterexample :
    jobProcessed stStalled = 3 ∧
    jobProcessed (checkStalledSendingCampaigns envEmpty goodCampaign
      (fun _ => SendOutcome.ok "m") 99 (31 * 60 * 1000) stStalled) = 2 := by
  exact ⟨by decide, by decide⟩

/-- C2 (amended): `processedEmails` never decreases under `updateBulkJobStats`
(each call adds exactly one); within one dispatch pass over `n` recipients
the job stays `processing` and the campaign stays `SENDING` after every
proper prefix, and completion (job `completed`, campaign `SENT`) fires
exactly at the final recipient — the pass-initial upsert, however, resets
the counter, which is what the counterexample exhibits. -/
theorem C2_processed_monotone_and_complete_once :
    (∀ (bid : Nat) (succ : Bool) (now : Nat) (st : PipeState),
        jobProcessed st ≤ jobProcessed (updateBulkJobStats bid succ now st)) ∧
    (∀ (env : Env) (c : CampaignData) (outcomes : Nat → SendOutcome)
        (fid now : Nat) (st : PipeState) (k : Nat),
        st.campaignStatus = CStatus.SENDING → k < c.emails.length →
        jobProcessed (dispatchPrefix env c outcomes fid now st k) = k ∧
        jobStatusStr (dispatchPrefix env c outcomes fid now st k) = "processing" ∧
        (dispatchPrefix env c outcomes fid now st k).campaignStatus =
          CStatus.SENDING) ∧
    (∀ (env : Env) (c : CampaignData) (outcomes : Nat → SendOutcome)
        (fid now : Nat) (st : PipeState),
        st.campaignStatus = CStatus.SENDING → c.emails ≠ [] →
        jobProcessed (processCampaignEmailsDirectly env c outcomes fid now st) =
          c.emails.length ∧
        jobTotal (processCampaignEmailsDirectly env c outcomes fid now st) =
          c.emails.length ∧
        jobStatusStr (processCampaignEmailsDirectly env c outcomes fid now st) =
          "completed" ∧
        (processCampaignEmailsDirectly env c outcomes fid now st).campaignStatus =
          CStatus.SENT) := by
  refine ⟨?_, ?_, ?_⟩
  · intro bid succ now st
    rcases hj : st.job with _ | j
    · rw [updateBulkJobStats_none _ _ _ _ hj]
    · by_cases hid : j.id = bid
      · obtain ⟨j', hjob, _, _, _, hproc, _, _⟩ :=
          updateBulkJobStats_step st j bid succ now hj hid
        simp [jobProcessed, hj, hjob, hproc]
      · rw [updateBulkJobStats_wrongId _ _ _ _ j hj hid]
  · intro env c outcomes fid now st k hsending hk
    obtain ⟨j', hjob, htot, hproc, hstat, hcs⟩ :=
      dispatch_prefix_job env c outcomes fid now st k (Nat.le_of_lt hk)
    have hcond : ¬ (k ≠ 0 ∧ k = c.emails.length) := by
      rintro ⟨-, hEq⟩
      omega
    refine ⟨by simp [jobProcessed, hjob, hproc],
      by simp [jobStatusStr, hjob, hstat, hcond], ?_⟩
    rw [hcs, if_neg hcond, hsending]
  · intro env c outcomes fid now st hsending hne
    obtain ⟨j', hjob, htot, hproc, hstat, hcs⟩ :=
      dispatch_pass_job env c outcomes fid now st
    refine ⟨by simp [jobProcessed, hjob, hproc],
      by simp [jobTotal, hjob, htot],
      by simp [jobStatusStr, hjob, hstat, hne], ?_⟩
    rw [hcs, if_pos hne]

/-- C2 witness: a concrete two-recipient pass from a fresh SENDING state ends
with both recipients processed and the campaign SENT. -/
theorem C2_processed_monotone_and_complete_once_witness :
    jobProcessed (processCampaignEmailsDirectly envEmpty goodCampaign
        (fun _ => SendOutcome.ok "m") 7 0 sendingEmpty) = 2 ∧
    (processCampaignEmailsDirectly envEmpty goodCampaign
        (fun _ => SendOutcome.ok "m") 7 0 sendingEmpty).campaignStatus =
      CStatus.SENT := by
  have h := C2_processed_monotone_and_complete_once.2.2 envEmpty goodCampaign
    (fun _ => SendOutcome.ok "m") 7 0 sendingEmpty rfl (by decide)
  exact ⟨h.1.trans (by decide), h.2.2.2⟩

/-- C3 counterexample: a prior attempt row exists (`rowPrior`, FAILED with
retries 2, a failure reason and an event timestamp); the claim says the
dispatch path resets its transient fields to PENDING.  The active
find-or-create phase of `sendSingleEmail` returns the row untouched and
writes nothing to the store. -/
theorem C3_counterexample :
    findSend [rowPrior] 1 20 = some rowPrior ∧
    ¬ ((findOrCreateSend [rowPrior] 1 20 7).1.status = SStatus.PENDING ∧
       (findOrCreateSend [rowPrior] 1 20 7).1.retries = 0 ∧
       (findOrCreateSend [rowPrior] 1 20 7).1.bounceReason = none ∧
       (findOrCreateSend [rowPrior] 1 20 7).1.openedAt = none) ∧
    (findOrCreateSend [rowPrior] 1 20 7).2 = [rowPrior] := by
  exact ⟨by decide, by decide, by decide⟩

/-- C3 (amended): reprocessing never inserts a second row for an existing
(campaign, recipient) pair — an existing row is reused (as-is, with no reset
of its transient fields), a missing row is created once in PENDING — and
after a dispatch pass every valid recipient has exactly one row; even the
legacy reconciliation (`processCampaignEmails`), which does reset status,
failure reason and event timestamps, leaves the retry counter unchanged. -/
theorem C3_upsert_not_insert :
    (∀ (sends : List EmailSend) (eid cid now : Nat) (s : EmailSend),
        findSend sends eid cid = some s →
        findOrCreateSend sends eid cid now = (s, sends)) ∧
    (∀ (sends : List EmailSend) (eid cid now : Nat),
        findSend sends eid cid = none →
        findOrCreateSend sends eid cid now =
          (freshSend eid cid now, sends ++ [freshSend eid cid now])) ∧
    (∀ (env : Env) (c : CampaignData) (outcomes : Nat → SendOutcome)
        (fid now : Nat) (st : PipeState),
        (c.emails.map (fun e => e.id)).Nodup →
        ∀ e ∈ c.emails, countKey st.sends e.id c.id ≤ 1 →
          countKey (processCampaignEmailsDirectly env c outcomes fid now st).sends
            e.id c.id = 1) ∧
    (∀ (sends : List EmailSend) (eid cid now : Nat) (s : EmailSend),
        findSend sends eid cid = some s →
        findSend (legacyReconcileSend sends eid cid now) eid cid =
          some (legacyResetSend now s) ∧
        (legacyResetSend now s).retries = s.retries) := by
  refine ⟨findOrCreateSend_of_found, findOrCreateSend_of_absent, ?_, ?_⟩
  · intro env c outcomes fid now st hnodup e he hle
    obtain ⟨j0, hj0, hid0, hproc0, htot0, hstat0, hcs0, hsends0⟩ :=
      upsertBulkJob_spec c fid now st
    rw [processDirect_eq_fold]
    rw [fold_send_count_mem env c outcomes (dispatchJobId c fid now st) now
      c.emails (upsertBulkJob c fid now st) hnodup e he]
    rw [hsends0]
    rcases Nat.lt_or_ge (countKey st.sends e.id c.id) 1 with h1 | h1
    · have h0 : countKey st.sends e.id c.id = 0 := by omega
      simp [h0]
    · have h1' : countKey st.sends e.id c.id = 1 := by omega
      simp [h1']
  · intro sends eid cid now s h
    constructor
    · unfold legacyReconcileSend
      rw [h]
      exact findSend_updateFirstSend_self sends eid cid (legacyResetSend now)
        (fun r => rfl) (fun r => rfl) s h
    · rfl

/-- C3 witness: re-running a pass over a store that already holds `rowPrior`
leaves exactly one row for the (campaign 20, recipient 1) pair. -/
theorem C3_upsert_not_insert_witness :
    countKey (processCampaignEmailsDirectly envEmpty goodCampaign
        (fun _ => SendOutcome.ok "m") 7 9
        { campaignStatus := .SENDING, sentAt := some 0, sends := [rowPrior],
          job := none }).sends 1 20 = 1 := by
  have h := C3_upsert_not_insert.2.2.1 envEmpty goodCampaign
    (fun _ => SendOutcome.ok "m") 7 9
    { campaignStatus := .SENDING, sentAt := some 0, sends := [rowPrior],
      job := none } (by decide) recipA (by decide) (by decide)
  exact h

/-- C4 counterexample.  First conjunct: an attempt that failed 25 hours ago
with retries 0 satisfies the claim's selection rule (FAILED, retries below 3,
backoff of 15 minutes long elapsed) yet the sweep does not re-dispatch it,
because the query also restricts to rows updated within the trailing 24
hours.  Second conjunct: a selected attempt whose re-dispatch succeeds keeps
retry count 1 (it is marked SENT with the counter untouched), while the claim
says the count is incremented regardless of outcome. -/
theorem C4_counterexample :
    (specRetrySelects now25h rowStale = true ∧
      retryRedispatchList now25h [rowStale] = []) ∧
    ((checkFailedEmailsForRetry envEmpty goodCampaign (fun _ => SendOutcome.ok "m")
        now2h stRetry).sends.map (fun r => (r.status, r.retries)) =
      [(SStatus.SENT, 1)]) := by
  exact ⟨⟨by decide, by decide⟩, by decide⟩

/-- C4 (amended): the sweep re-dispatches exactly the attempts in FAILED with
retry count below 3 that were last updated within the trailing 24 hours and
whose backoff of `15 min * 2 ^ retryCount` has elapsed; each re-dispatch goes
through the same per-attempt path (`sendSingleEmail`), which increments the
retry count only when the re-dispatch fails and leaves it unchanged (marking
the row SENT) when it succeeds. -/
theorem C4_retry_sweep_selection :
    (∀ (now : Nat) (sends : List EmailSend) (s : EmailSend),
        s ∈ retryRedispatchList now sends ↔
          s ∈ sends ∧ retryQueryPred now s = true ∧ retryDuePred now s = true) ∧
    (∀ (now : Nat) (s : EmailSend),
        retryQueryPred now s = true ↔
          (s.status = SStatus.FAILED ∧ s.retries < 3 ∧
            now - twentyFourHoursMs ≤ s.updatedAt)) ∧
    (∀ (now : Nat) (s : EmailSend),
        retryDuePred now s = true ↔
          2 ^ s.retries * RETRY_DELAY_BASE ≤ now - s.updatedAt) ∧
    (∀ (env : Env) (c : CampaignData) (outcomes : Nat → SendOutcome) (now : Nat)
        (cs : CStatus) (sa : Option Nat) (jb : Option BulkJob) (s : EmailSend),
        c.id = s.campaignId → retryQueryPred now s = true →
        retryDuePred now s = true →
        (checkFailedEmailsForRetry env c outcomes now
            { campaignStatus := cs, sentAt := sa, sends := [s], job := jb }).sends =
          [redispatchedRow env c (outcomes s.emailId) now s]) ∧
    (∀ (env : Env) (c : CampaignData) (o : SendOutcome) (now : Nat) (s : EmailSend),
        ((redispatchedRow env c o now s).status = SStatus.FAILED ∧
          (redispatchedRow env c o now s).retries = s.retries + 1) ∨
        ((redispatchedRow env c o now s).status = SStatus.SENT ∧
          (redispatchedRow env c o now s).retries = s.retries)) := by
  refine ⟨?_, ?_, ?_, ?_, ?_⟩
  · intro now sends s
    simp only [retryRedispatchList, List.mem_filter]
    tauto
  · intro now s
    simp [retryQueryPred, MAX_RETRY_ATTEMPTS, and_assoc]
  · intro now s
    simp [retryDuePred]
  · intro env c outcomes now cs sa jb s hc hq hd
    rw [checkFailedEmailsForRetry_singleton env c outcomes now cs sa jb s hc]
    rw [if_pos ⟨hq, hd⟩]
  · intro env c o now s
    exact redispatchedRow_cases env c o now s

/-- C4 witness: the sweep re-dispatches `rowRetryable` (failed two hours ago,
one retry) through `sendSingleEmail`. -/
theorem C4_retry_sweep_selection_witness :
    (checkFailedEmailsForRetry envEmpty goodCampaign (fun _ => SendOutcome.err "x")
        now2h { campaignStatus := .SENDING, sentAt := some 0,
                sends := [rowRetryable], job := none }).sends =
      [redispatchedRow envEmpty goodCampaign (SendOutcome.err "x") now2h
        rowRetryable] := by
  exact C4_retry_sweep_selection.2.2.2.1 envEmpty goodCampaign
    (fun _ => SendOutcome.err "x") now2h CStatus.SENDING (some 0) none rowRetryable
    (by decide) (by decide) (by decide)

/-- C5: the retry sweep only ever selects attempts with retry count below 3;
an attempt at the ceiling (retries = 3) is never re-dispatched or transitioned
by the sweep again (the whole state is untouched); a sweep step keeps the
retry count at most 3; and a concrete attempt that fails on the initial
dispatch and on two due retry sweeps reaches exactly retries = 3, FAILED, and
is no longer selected at any later time. -/
theorem C5_retry_ceiling :
    (∀ (now : Nat) (sends : List EmailSend) (s : EmailSend),
        s ∈ retryRedispatchList now sends → s.retries < 3) ∧
    (∀ (env : Env) (c : CampaignData) (outcomes : Nat → SendOutcome) (now : Nat)
        (cs : CStatus) (sa : Option Nat) (jb : Option BulkJob) (s : EmailSend),
        3 ≤ s.retries →
        checkFailedEmailsForRetry env c outcomes now
            { campaignStatus := cs, sentAt := sa, sends := [s], job := jb } =
          { campaignStatus := cs, sentAt := sa, sends := [s], job := jb }) ∧
    (∀ (env : Env) (c : CampaignData) (outcomes : Nat → SendOutcome) (now : Nat)
        (cs : CStatus) (sa : Option Nat) (jb : Option BulkJob) (s : EmailSend),
        c.id = s.campaignId → s.retries ≤ 3 →
        ∀ r ∈ (checkFailedEmailsForRetry env c outcomes now
            { campaignStatus := cs, sentAt := sa, sends := [s], job := jb }).sends,
          r.retries ≤ 3) ∧
    ((sendSingleEmail envEmpty badCampaign recipA (SendOutcome.err "x") 9 1000
        { campaignStatus := .SENDING, sentAt := some 0, sends := [],
          job := none }).sends.map (fun r => (r.status, r.retries)) =
      [(SStatus.FAILED, 1)] ∧
      (checkFailedEmailsForRetry envEmpty badCampaign (fun _ => SendOutcome.err "x")
          1801000 (sendSingleEmail envEmpty badCampaign recipA (SendOutcome.err "x")
            9 1000 { campaignStatus := .SENDING, sentAt := some 0, sends := [],
                     job := none })).sends.map (fun r => (r.status, r.retries)) =
        [(SStatus.FAILED, 2)] ∧
      (checkFailedEmailsForRetry envEmpty badCampaign (fun _ => SendOutcome.err "x")
          5401000 (checkFailedEmailsForRetry envEmpty badCampaign
            (fun _ => SendOutcome.err "x") 1801000
            (sendSingleEmail envEmpty badCampaign recipA (SendOutcome.err "x") 9 1000
              { campaignStatus := .SENDING, sentAt := some 0, sends := [],
                job := none }))).sends.map (fun r => (r.status, r.retries)) =
        [(SStatus.FAILED, 3)] ∧
      (∀ now : Nat,
        retryRedispatchList now (checkFailedEmailsForRetry envEmpty badCampaign
            (fun _ => SendOutcome.err "x") 5401000
            (checkFailedEmailsForRetry envEmpty badCampaign
              (fun _ => SendOutcome.err "x") 1801000
              (sendSingleEmail envEmpty badCampaign recipA (SendOutcome.err "x") 9
                1000 { campaignStatus := .SENDING, sentAt := some 0, sends := [],
                       job := none }))).sends = [])) := by
  refine ⟨?_, ?_, ?_, by decide, by decide, by decide, ?_⟩
  · intro now sends s hs
    have h := ((C4_retry_sweep_selection.1 now sends s).mp hs).2.1
    have := (C4_retry_sweep_selection.2.1 now s).mp h
    exact this.2.1
  · intro env c outcomes now cs sa jb s h3
    apply checkFailedEmailsForRetry_no_op
    rw [show ({ campaignStatus := cs, sentAt := sa, sends := [s], job := jb } :
        PipeState).sends = [s] from rfl]
    rw [retryRedispatchList_singleton]
    have hq : ¬ (retryQueryPred now s = true) := by
      simp only [retryQueryPred, MAX_RETRY_ATTEMPTS, Bool.and_eq_true,
        decide_eq_true_eq]
      rintro ⟨⟨-, hlt⟩, -⟩
      omega
    rw [if_neg (by rintro ⟨h1, -⟩; exact hq h1)]
  · intro env c outcomes now cs sa jb s hc hle r hr
    rw [checkFailedEmailsForRetry_singleton env c outcomes now cs sa jb s hc] at hr
    by_cases hsel : retryQueryPred now s = true ∧ retryDuePred now s = true
    · rw [if_pos hsel] at hr
      simp only [List.mem_singleton] at hr
      subst hr
      have hlt : s.retries < 3 := by
        have := (C4_retry_sweep_selection.2.1 now s).mp hsel.1
        exact this.2.1
      rcases redispatchedRow_cases env c (outcomes s.emailId) now s with
        ⟨-, hret⟩ | ⟨-, hret⟩ <;> omega
    · rw [if_neg hsel] at hr
      simp only [List.mem_singleton] at hr
      subst hr
      exact hle
  · intro now
    have h3 : (checkFailedEmailsForRetry envEmpty badCampaign
        (fun _ => SendOutcome.err "x") 5401000
        (checkFailedEmailsForRetry envEmpty badCampaign
          (fun _ => SendOutcome.err "x") 1801000
          (sendSingleEmail envEmpty badCampaign recipA (SendOutcome.err "x") 9
            1000 { campaignStatus := .SENDING, sentAt := some 0, sends := [],
                   job := none }))).sends =
        [{ emailId := 1, campaignId := 10, status := .FAILED, retries := 3,
           bounceReason := some "Custom SMTP configuration incomplete",
           openedAt := none, clickedAt := none,
           bouncedAt := none, complainedAt := none, updatedAt := 5401000 }] := by
      decide
    rw [h3, retryRedispatchList_singleton]
    rw [if_neg ?hnot]
    case hnot =>
      rintro ⟨h1, -⟩
      simp only [retryQueryPred, MAX_RETRY_ATTEMPTS, Bool.and_eq_true,
        decide_eq_true_eq] at h1
      omega

/-- C5 witness: an attempt at the ceiling is left untouched by the sweep. -/
theorem C5_retry_ceiling_witness :
    checkFailedEmailsForRetry envEmpty goodCampaign (fun _ => SendOutcome.ok "m") 0
        { campaignStatus := .SENDING, sentAt := some 0, sends := [rowMaxed],
          job := none } =
      { campaignStatus := .SENDING, sentAt := some 0, sends := [rowMaxed],
        job := none } := by
  exact C5_retry_ceiling.2.1 envEmpty goodCampaign (fun _ => SendOutcome.ok "m") 0
    CStatus.SENDING (some 0) none rowMaxed (by decide)

/-- C6 counterexample: `stStalled` holds an attempt already SENT for
recipient 1 and a FAILED one for recipient 2.  The claim says dispatch is
re-run for just the non-terminal attempts, so the SENT attempt must stay
untouched; the sweep instead re-runs the full pass over all valid
recipients, re-dispatching (and here failing) the already-SENT attempt. -/
theorem C6_counterexample :
    rowASent.status = SStatus.SENT ∧
    (checkStalledSendingCampaigns envEmpty goodCampaign
        (fun _ => SendOutcome.err "boom") 99 (31 * 60 * 1000)
        stStalled).sends.map (fun r => (r.emailId, r.status)) =
      [(1, SStatus.FAILED), (2, SStatus.FAILED)] := by
  exact ⟨by decide, by decide⟩

/-- C6 (amended): a campaign in SENDING whose `sentAt` is at least 30 minutes
old is re-inspected; with zero non-terminal attempts it is force-completed to
SENT (only the status changes), and with at least one non-terminal attempt
the full dispatch pass re-runs over all currently-valid recipients (not just
the non-terminal attempts), after which the job counters cover every valid
recipient and a non-empty campaign completes to SENT. -/
theorem C6_stall_recovery :
    (∀ (env : Env) (c : CampaignData) (outcomes : Nat → SendOutcome)
        (fid now : Nat) (st : PipeState) (t : Nat),
        st.campaignStatus = CStatus.SENDING → st.sentAt = some t →
        t ≤ now - 30 * 60 * 1000 →
        st.sends.filter (fun s => nonTerminalStatuses.contains s.status) = [] →
        checkStalledSendingCampaigns env c outcomes fid now st =
          { st with campaignStatus := CStatus.SENT }) ∧
    (∀ (env : Env) (c : CampaignData) (outcomes : Nat → SendOutcome)
        (fid now : Nat) (st : PipeState) (t : Nat),
        st.campaignStatus = CStatus.SENDING → st.sentAt = some t →
        t ≤ now - 30 * 60 * 1000 →
        st.sends.filter (fun s => nonTerminalStatuses.contains s.status) ≠ [] →
        checkStalledSendingCampaigns env c outcomes fid now st =
          processCampaignEmailsDirectly env c outcomes fid now st ∧
        jobProcessed (checkStalledSendingCampaigns env c outcomes fid now st) =
          c.emails.length ∧
        jobTotal (checkStalledSendingCampaigns env c outcomes fid now st) =
          c.emails.length ∧
        (c.emails ≠ [] →
          (checkStalledSendingCampaigns env c outcomes fid now st).campaignStatus =
            CStatus.SENT)) := by
  refine ⟨checkStalled_complete, ?_⟩
  intro env c outcomes fid now st t hsending hsa ht hterm
  have heq := checkStalled_redispatch env c outcomes fid now st t hsending hsa ht hterm
  obtain ⟨j', hjob, htot, hproc, hstat, hcs⟩ :=
    dispatch_pass_job env c outcomes fid now st
  refine ⟨heq, ?_, ?_, ?_⟩
  · rw [heq]
    simp [jobProcessed, hjob, hproc]
  · rw [heq]
    simp [jobTotal, hjob, htot]
  · intro hne
    rw [heq, hcs, if_pos hne]

/-- C6 witness: a campaign forced into SENDING with `sentAt` 31 minutes old
and zero non-terminal attempts transitions to SENT on the stall sweep. -/
theorem C6_stall_recovery_witness :
    checkStalledSendingCampaigns envEmpty goodCampaign (fun _ => SendOutcome.ok "m")
        7 (31 * 60 * 1000) stStalledDone =
      { stStalledDone with campaignStatus := CStatus.SENT } := by
  exact C6_stall_recovery.1 envEmpty goodCampaign (fun _ => SendOutcome.ok "m") 7
    (31 * 60 * 1000) stStalledDone 0 rfl rfl (by decide) (by decide)

/-- C7: the dispatch pass slices the valid recipients into batches of
`BATCH_SIZE = 10` (the slices reassemble to the recipient list, every batch
is non-empty with at most 10 recipients, and every batch except possibly the
last has exactly 10), with a 1-second pause after each batch; within a batch
`Promise.allSettled` collects every outcome, so each recipient's final row is
a function of that recipient's own outcome alone (a sibling's exception
cannot prevent or alter it), and per-recipient errors never move the campaign
to FAILED - the pass leaves the campaign status unchanged or completes it to
SENT. -/
theorem C7_batching_and_isolation :
    BATCH_SIZE = 10 ∧ interBatchPauseMs = 1000 ∧
    (∀ l : List EmailRec, (chunkList BATCH_SIZE l).flatten = l) ∧
    (∀ (l b : List EmailRec), b ∈ chunkList BATCH_SIZE l →
        0 < b.length ∧ b.length ≤ BATCH_SIZE) ∧
    (∀ (l b : List EmailRec), b ∈ (chunkList BATCH_SIZE l).dropLast →
        b.length = BATCH_SIZE) ∧
    (∀ (env : Env) (c : CampaignData) (outcomes : Nat → SendOutcome)
        (fid now : Nat) (st : PipeState),
        (c.emails.map (fun e => e.id)).Nodup →
        ∀ e ∈ c.emails,
          findSend (processCampaignEmailsDirectly env c outcomes fid now st).sends
              e.id c.id =
            some (redispatchedRow env c (outcomes e.id) now
              ((findSend st.sends e.id c.id).getD (freshSend e.id c.id now)))) ∧
    (∀ (env : Env) (c : CampaignData) (outcomes : Nat → SendOutcome)
        (fid now : Nat) (st : PipeState),
        (processCampaignEmailsDirectly env c outcomes fid now st).campaignStatus =
            st.campaignStatus ∨
        (processCampaignEmailsDirectly env c outcomes fid now st).campaignStatus =
            CStatus.SENT) := by
  refine ⟨rfl, rfl, ?_, ?_, ?_, ?_, processDirect_campaignStatus⟩
  · intro l
    exact chunkList_flatten BATCH_SIZE l
  · intro l b hb
    exact chunkList_mem_length BATCH_SIZE (by decide) l b hb
  · intro l b hb
    exact chunkList_dropLast_length BATCH_SIZE (by decide) l b hb
  · intro env c outcomes fid now st hnodup e he
    obtain ⟨j0, hj0, hid0, hproc0, htot0, hstat0, hcs0, hsends0⟩ :=
      upsertBulkJob_spec c fid now st
    rw [processDirect_eq_fold]
    rw [fold_send_rows env c outcomes (dispatchJobId c fid now st) now c.emails
      (upsertBulkJob c fid now st) hnodup e he, hsends0]

/-- C7 witness: with recipient 1's outcome an exception and recipient 2's a
success, recipient 2's attempt still completes to SENT. -/
theorem C7_batching_and_isolation_witness :
    findSend (processCampaignEmailsDirectly envEmpty goodCampaign
        (fun i => if i = 1 then SendOutcome.err "x" else SendOutcome.ok "m") 7 9
        sendingEmpty).sends 2 20 =
      some (redispatchedRow envEmpty goodCampaign (SendOutcome.ok "m") 9
        (freshSend 2 20 9)) := by
  have h := (C7_batching_and_isolation.2.2.2.2.2.1) envEmpty goodCampaign
    (fun i => if i = 1 then SendOutcome.err "x" else SendOutcome.ok "m") 7 9
    sendingEmpty (by decide) recipB (by decide)
  exact h

/-- C8: while the cooling period is active, any send call of the SMTP adapter
fails fast with the cooling error, with zero network attempts and the metrics
untouched; the number of network attempts per call never exceeds the bound
`MAX_RETRIES = 3`; a send hitting connection-class errors is retried in-call
with exponential backoff (2 s, then 4 s) and the transporter recreated at the
second failure, succeeding if a later attempt succeeds; after the third
consecutive connection failure the call throws and the adapter enters a
5-minute cooling period, during which every further send (whatever its
outcomes) is refused without a network attempt; a non-connection error is
thrown immediately without a retry. -/
theorem C8_smtp_retry_and_cooling :
    (∀ (now : Nat) (msg : MsgM) (outcomes : Nat → NetOutcome) (m : ConnMetrics)
        (t : Nat), validateEmailMessage msg = Except.ok () →
        m.coolingUntil = some t → now < t →
        nodemailerSend now msg outcomes m =
          { result := .coolingRefused, metrics := m, attemptsUsed := 0,
            recreated := false, backoffs := [] }) ∧
    (∀ (now : Nat) (msg : MsgM) (outcomes : Nat → NetOutcome) (m : ConnMetrics),
        (nodemailerSend now msg outcomes m).attemptsUsed ≤ NM_MAX_RETRIES) ∧
    (nodemailerSend 100 msgOk outcomesConnThenOk metrics0 =
      { result := .sent "mid",
        metrics := { successCount := 1, errorCount := 2, lastError := some 100,
                     coolingUntil := none },
        attemptsUsed := 3, recreated := true, backoffs := [2000, 4000] }) ∧
    (nodemailerSend 100 msgOk outcomesConn metrics0 =
      { result := .failedAfterMax "connection timeout",
        metrics := { successCount := 0, errorCount := 3, lastError := some 100,
                     coolingUntil := some (100 + NM_COOLING_PERIOD) },
        attemptsUsed := 3, recreated := true, backoffs := [2000, 4000] }) ∧
    (∀ (now2 : Nat) (outcomes2 : Nat → NetOutcome),
        now2 < 100 + NM_COOLING_PERIOD →
        nodemailerSend now2 msgOk outcomes2
            (nodemailerSend 100 msgOk outcomesConn metrics0).metrics =
          { result := .coolingRefused,
            metrics := (nodemailerSend 100 msgOk outcomesConn metrics0).metrics,
            attemptsUsed := 0, recreated := false, backoffs := [] }) ∧
    (nodemailerSend 100 msgOk outcomesOther metrics0 =
      { result := .thrown "mailbox unavailable",
        metrics := { successCount := 0, errorCount := 1, lastError := some 100,
                     coolingUntil := none },
        attemptsUsed := 1, recreated := false, backoffs := [] }) := by
  refine ⟨nodemailerSend_cooling, nodemailerSend_attempts_le, by decide, by decide,
    ?_, by decide⟩
  intro now2 outcomes2 h
  have hm : (nodemailerSend 100 msgOk outcomesConn metrics0).metrics =
      { successCount := 0, errorCount := 3, lastError := some 100,
        coolingUntil := some (100 + NM_COOLING_PERIOD) } := by decide
  rw [hm]
  exact nodemailerSend_cooling now2 msgOk outcomes2 _ (100 + NM_COOLING_PERIOD)
    rfl rfl h

/-- C8 witness: a send during an active cooling window is refused with no
attempt made. -/
theorem C8_smtp_retry_and_cooling_witness :
    nodemailerSend 5 msgOk outcomesConn
        { successCount := 0, errorCount := 0, lastError := none,
          coolingUntil := some 10 } =
      { result := .coolingRefused,
        metrics := { successCount := 0, errorCount := 0, lastError := none,
                     coolingUntil := some 10 },
        attemptsUsed := 0, recreated := false, backoffs := [] } := by
  exact C8_smtp_retry_and_cooling.1 5 msgOk outcomesConn _ 10 rfl rfl
    (by decide)

/-- C9: a transiently failing counter update is swallowed (the call returns
with no mutation and no exception), the completion check of
`updateBulkJobStats` is decided against the re-read persisted job row (the
campaign is marked SENT exactly when the persisted counters reach the total),
and a SENDING campaign with at least one attempt row, all rows terminal, is
marked SENT by the periodic metrics pass - which reads only the attempt rows,
so it fires even right after a failed counter update. -/
theorem C9_completion_detection :
    (∀ (st : PipeState) (j : BulkJob) (bid : Nat) (succ : Bool) (now : Nat),
        st.job = some j → j.id = bid → st.campaignStatus = CStatus.SENDING →
        ((updateBulkJobStats bid succ now st).campaignStatus = CStatus.SENT ↔
          j.totalEmails ≤ j.processedEmails + 1)) ∧
    (∀ (bid : Nat) (succ : Bool) (now : Nat) (st : PipeState),
        updateBulkJobStatsFallible true bid succ now st = st) ∧
    (∀ st : PipeState, st.campaignStatus = CStatus.SENDING → st.sends ≠ [] →
        (∀ s ∈ st.sends, terminalStatuses.contains s.status = true) →
        (updateCampaignMetrics st).campaignStatus = CStatus.SENT) ∧
    (∀ (bid : Nat) (succ : Bool) (now : Nat) (st : PipeState),
        st.campaignStatus = CStatus.SENDING → st.sends ≠ [] →
        (∀ s ∈ st.sends, terminalStatuses.contains s.status = true) →
        (updateCampaignMetrics
            (updateBulkJobStatsFallible true bid succ now st)).campaignStatus =
          CStatus.SENT) := by
  have hmetrics : ∀ st : PipeState, st.campaignStatus = CStatus.SENDING →
      st.sends ≠ [] →
      (∀ s ∈ st.sends, terminalStatuses.contains s.status = true) →
      (updateCampaignMetrics st).campaignStatus = CStatus.SENT := by
    intro st hsending hne hterm
    unfold updateCampaignMetrics
    rw [hsending]
    have hfilter : st.sends.filter (fun s => terminalStatuses.contains s.status) =
        st.sends := List.filter_eq_self.mpr hterm
    rw [if_pos rfl, hfilter]
    have hpos : 0 < st.sends.length := List.length_pos.mpr hne
    simp [hpos]
  refine ⟨?_, ?_, hmetrics, ?_⟩
  · intro st j bid succ now hj hid hsending
    obtain ⟨j', hjob, _, _, _, hproc, hstat, hcs⟩ :=
      updateBulkJobStats_step st j bid succ now hj hid
    rw [hcs]
    by_cases hc : j.totalEmails ≤ j.processedEmails + 1
    · simp [hc]
    · rw [if_neg hc, hsending]
      simp [hc]
  · intro bid succ now st
    rfl
  · intro bid succ now st hsending hne hterm
    exact hmetrics st hsending hne hterm

/-- C9 witness: after a failed counter update on `stStalled` (both of whose
attempts are terminal), the metrics pass still marks the campaign SENT. -/
theorem C9_completion_detection_witness :
    (updateCampaignMetrics
        (updateBulkJobStatsFallible true 5 true 9 stStalled)).campaignStatus =
      CStatus.SENT := by
  exact C9_completion_detection.2.2.2 5 true 9 stStalled rfl (by decide) (by decide)

/-- C10: `triggerDraftCampaignImmediately` succeeds only on an existing DRAFT
campaign, clearing its schedule and setting it READY (all other rows
untouched); a missing campaign or one in any other status makes the call
throw before any write, so no campaign row is modified. -/
theorem C10_trigger_draft :
    (∀ (store : List CampaignRow) (cid : Nat) (c : CampaignRow),
        store.find? (fun r => r.id = cid) = some c → c.status = CStatus.DRAFT →
        triggerDraftCampaignImmediately store cid =
          Except.ok (store.map (fun r =>
            if r.id = cid then { r with scheduledAt := none, status := CStatus.READY }
            else r))) ∧
    (∀ (store : List CampaignRow) (cid : Nat),
        store.find? (fun r => r.id = cid) = none →
        triggerDraftCampaignImmediately store cid =
          Except.error "Campaign not found") ∧
    (∀ (store : List CampaignRow) (cid : Nat) (c : CampaignRow),
        store.find? (fun r => r.id = cid) = some c → c.status ≠ CStatus.DRAFT →
        triggerDraftCampaignImmediately store cid =
          Except.error "Campaign must be in DRAFT status") := by
  refine ⟨?_, ?_, ?_⟩
  · intro store cid c h hdraft
    unfold triggerDraftCampaignImmediately
    rw [h]
    simp [hdraft]
  · intro store cid h
    unfold triggerDraftCampaignImmediately
    rw [h]
  · intro store cid c h hstatus
    unfold triggerDraftCampaignImmediately
    rw [h]
    simp [hstatus]

/-- C10 witness: triggering the stored DRAFT campaign clears its schedule and
sets it READY, leaving the SENT campaign untouched. -/
theorem C10_trigger_draft_witness :
    triggerDraftCampaignImmediately [campRow1, campRow2] 1 =
      Except.ok [{ id := 1, status := CStatus.READY, scheduledAt := none },
        campRow2] := by
  have h := C10_trigger_draft.1 [campRow1, campRow2] 1 campRow1 (by decide)
    (by decide)
  exact h.trans rfl

end EmailPipeline
